import Mathlib

/-!
Shallow embedding of the Zombie Race game (src/a2_n9424342.c) in Lean 4,
together with theorems settling the claims C1 - C10 about its specification.

Modelling conventions, stated once here:
* C doubles are modelled as exact rationals; all arithmetic used by the
  claims is exact in both models (see the per-definition comments).
* uint8_t arithmetic is modelled on Nat with an explicit mod 256 at every
  write where the C value could wrap.
* rand() is modelled as a stream of natural numbers carried in the state;
  each call consumes the head of the stream.  C computes rand() % n, which
  for n > 0 agrees with Nat/Int mod on nonnegative arguments.
* the Timer0/Timer1 interrupts are modelled as happening between two main
  loop iterations (this is the atomicity model that the program itself
  assumes: the main loop only reads the debounced states).  The raw pin
  sampling and debouncing of ISR(TIMER0_OVF_vect) is modelled separately
  (debounce_push / debounce_step below); the main machine receives the
  debounced states as arbitrary per-tick inputs.
* the LCD and USB calls, the contrast setting, and the elapsed-time
  bookkeeping (game_timer_counter, time_paused, TCNT registers) are pure
  output / display state and are not part of the modelled state.
-/

set_option maxRecDepth 8000
set_option maxHeartbeats 1000000

namespace ZombieRace

/-! ## Constants (the #define block and the LCD geometry, lcd.h: 84 x 48) -/

def LCD_X : ℕ := 84
def LCD_Y : ℕ := 48
def DASHBOARD_BORDER_X : ℕ := 26

def SPEED_THRESH : ℕ := 8
def SPEED_FACTOR : ℕ := 8
def SPEED_MIN : ℕ := 0
def SPEED_MAX : ℕ := 10
def SPEED_OFFROAD_MAX : ℕ := 3

def ROAD_LEFT : ℕ := 0
def ROAD_RIGHT : ℕ := 1
def ROAD_STRAIGHT : ℕ := 2
def ROAD_CURVE_MIN : ℕ := 1
def ROAD_CURVE_MAX : ℕ := 3
def ROAD_SECTION_MIN : ℕ := 15
def ROAD_SECTION_MAX : ℕ := 35

def FUEL_FACTOR : ℕ := 3
def FUEL_MAX : ℕ := 100
def FUEL_STATION_MIN : ℕ := 140
def FUEL_STAION_MAX : ℕ := 180

def NUM_TERRAIN : ℕ := 10
def NUM_HAZARD : ℕ := 2
def HAZARD_SPAWN_CHANCE : ℕ := 15

def START_SCREEN : ℕ := 1
def GAME_SCREEN : ℕ := 2
def GAMEOVER_SCREEN : ℕ := 3

/-- Bitmap references are opaque to the simulation; we number them. -/
def car_bitmap : ℕ := 0
def terrain_tree_bitmap : ℕ := 1
def terrain_sign_bitmap : ℕ := 2
def hazard_triangle_bitmap : ℕ := 3
def hazard_spike_bitmap : ℕ := 4
def fuel_station_bitmap : ℕ := 5

def car_width : ℤ := 4
def car_height : ℤ := 5
def terrain_tree_width : ℤ := 8
def terrain_tree_height : ℤ := 5
def terrain_sign_width : ℤ := 5
def terrain_sign_height : ℤ := 4
def hazard_triangle_width : ℤ := 5
def hazard_triangle_height : ℤ := 3
def hazard_spike_width : ℤ := 5
def hazard_spike_height : ℤ := 2
def fuel_station_width : ℤ := 8
def fuel_station_height : ℤ := 8

/-- The road width global; it is never written after initialisation. -/
def road_width : ℕ := 16

/-! ## Sprites -/

/-- Sprite of the cab202 teensy library: double x, y; int width, height;
a bitmap pointer (opaque here). -/
structure Sprite where
  x : ℚ
  y : ℚ
  width : ℤ
  height : ℤ
  bitmap : ℕ
deriving DecidableEq, Repr

/-- Translation of check_sprite_collided (the pixel check of the source,
check_sprite_collided_pixel, always returns true, so the test is the pure
bounding-box test; the address self-comparison in the C callers can never
fire because the argument is a by-value copy). -/
def check_sprite_collided (s1 s2 : Sprite) : Prop :=
  ¬(s1.x + s1.width ≤ s2.x ∨ s1.x ≥ s2.x + s2.width) ∧
  ¬(s1.y + s1.height < s2.y ∨ s1.y > s2.y + s2.height)

instance (s1 s2 : Sprite) : Decidable (check_sprite_collided s1 s2) := by
  unfold check_sprite_collided; infer_instance

/-- Rounding of C round(): round half away from zero, then truncation to int
(round already yields an integral value). -/
def cround (q : ℚ) : ℤ :=
  if 0 ≤ q then ⌊q + 1/2⌋ else -⌊-q + 1/2⌋

/-- Storing an int value into a uint8_t variable (mod 256). -/
def storeU8 (z : ℤ) : ℕ := (z % 256).toNat

/-- C rand() % n for an int n.  For n ≤ 0 this is undefined behaviour in C
(it never happens for the geometry of reachable states); we pick 0. -/
def cmod (r : ℕ) (n : ℤ) : ℤ :=
  if 0 < n then (r : ℤ) % n else 0

/-! ## The game state (the global variables of the C file) -/

/-- All mutable globals of a2_n9424342.c that the simulation reads, plus the
pending random stream.  The debounce history registers live in the separate
debounce model; the main machine receives the debounced states. -/
structure GameState where
  button_left_state : Bool
  prev_button_left_state : Bool
  button_right_state : Bool
  prev_button_right_state : Bool
  stick_centre_state : Bool
  prev_stick_centre_state : Bool
  stick_left_state : Bool
  prev_stick_left_state : Bool
  stick_right_state : Bool
  prev_stick_right_state : Bool
  stick_up_state : Bool
  prev_stick_up_state : Bool
  stick_down_state : Bool
  prev_stick_down_state : Bool
  condition : ℕ
  fuel : ℚ
  speed : ℚ
  distance : ℕ
  finish_line : ℕ
  distance_counter : ℕ
  speed_counter : ℚ
  game_over_loss : Bool
  game_paused : Bool
  player : Sprite
  road : Fin 48 → ℕ
  road_counter : ℕ
  road_curve : ℕ
  road_direction : ℕ
  road_section_length : ℕ
  terrain : Fin 10 → Sprite
  hazard : Fin 2 → Sprite
  fuel_station : Sprite
  fuel_station_counter : ℤ
  refuelling : Bool
  game_screen : ℕ
  rand : ℕ → ℕ

/-- Consume one value of the random stream. -/
def nextRand (s : GameState) : ℕ × GameState :=
  (s.rand 0, {s with rand := fun n => s.rand (n + 1)})

/-- Total road lookup.  The C code indexes road[] with ints that are always
in range for reachable states; an out-of-range access would be undefined
behaviour, modelled as 0. -/
def roadAt (s : GameState) (i : ℤ) : ℕ :=
  if h : 0 ≤ i ∧ i < 48 then s.road ⟨i.toNat, by omega⟩ else 0

/-! ## Helper predicates -/

/-- Translation of in_bounds. -/
def in_bounds (x y : ℚ) : Prop :=
  ¬(x ≤ (DASHBOARD_BORDER_X : ℚ) ∨ x > (LCD_X : ℚ) - 1) ∧
  ¬(y ≤ 1 ∨ y > (LCD_Y : ℚ) - 1)

instance (x y : ℚ) : Decidable (in_bounds x y) := by
  unfold in_bounds; infer_instance

/-- Translation of offroad. -/
def offroad (s : GameState) (spr : Sprite) : Prop :=
  spr.x < (roadAt s (cround spr.y) : ℚ) ∨
  spr.x + spr.width - 1 > (roadAt s (cround spr.y) : ℚ) + road_width

instance (s : GameState) (spr : Sprite) : Decidable (offroad s spr) := by
  unfold offroad; infer_instance

/-- Translation of check_collision: any terrain, hazard or the fuel station
colliding with the sprite (the pointer self-checks of the C code are
vacuous: the argument is a by-value copy). -/
def check_collision (s : GameState) (spr : Sprite) : Prop :=
  (∃ i : Fin 10, check_sprite_collided spr (s.terrain i)) ∨
  (∃ i : Fin 2, check_sprite_collided spr (s.hazard i)) ∨
  check_sprite_collided spr s.fuel_station

instance (s : GameState) (spr : Sprite) : Decidable (check_collision s spr) := by
  unfold check_collision; infer_instance

/-! ## Player -/

/-- Translation of player_car_setup. -/
def player_car_setup (s : GameState) : GameState :=
  let y : ℤ := LCD_Y - car_height - 2
  let x : ℤ := (road_width : ℤ) / 2 + roadAt s y - car_width / 2 + 1
  {s with player := ⟨(x : ℚ), (y : ℚ), car_width, car_height, car_bitmap⟩}

/-- Translation of player_car_reset (only moves the existing sprite). -/
def player_car_reset (s : GameState) : GameState :=
  let y : ℤ := LCD_Y - car_height - 2
  let x : ℤ := (road_width : ℤ) / 2 + roadAt s y - car_width / 2 + 1
  {s with player := {s.player with x := (x : ℚ), y := (y : ℚ)}}

/-- Translation of player_car_move. -/
def player_car_move (dx : ℤ) (s : GameState) : GameState :=
  let x := s.player.x + dx
  let dx : ℤ :=
    if ¬ in_bounds x s.player.y then 0
    else if ¬ in_bounds (x + s.player.width) s.player.y then 0
    else dx
  let p := {s.player with x := s.player.x + dx}
  let p := if check_collision s p then {p with x := p.x - dx} else p
  {s with player := p}

/-- Translation of player_speed_input.  pot0 is the current ADC reading of
potentiometer 0 (a 10-bit value).  The C rates are double literals; the
ones used exactly by the claims (-10.0/40.0) are exactly representable. -/
def player_speed_input (pot0 : ℕ) (s : GameState) : GameState :=
  let mx : ℕ := if offroad s s.player then SPEED_OFFROAD_MAX else SPEED_MAX
  let speed_limit : ℕ := pot0 * mx / 1024 + 1
  let rate : ℚ :=
    if s.button_left_state then -10/40
    else if s.button_right_state then
      (if offroad s s.player then 3/120 else 10/90)
    else if s.speed > 1 then
      (if offroad s s.player then -3/75 else -10/80)
    else
      (if offroad s s.player then 1/30 else 1/20)
  let sp := s.speed + rate
  let sp := if sp > (speed_limit : ℚ) then (speed_limit : ℚ)
            else if sp < 0 then 0 else sp
  {s with speed := sp}

/-! ## Road -/

/-- The per-direction horizontal step of road_step's switch. -/
def roadDX (d : ℕ) : ℤ :=
  if d = ROAD_STRAIGHT then 0
  else if d = ROAD_LEFT then -1
  else if d = ROAD_RIGHT then 1
  else 0

/-- The guard of road_step deciding whether the candidate horizontal shift
is applied: the shifted top must stay strictly inside the playing area and
at least road_curve steps must have passed since the last applied shift
(road_counter is compared after its increment). -/
def road_shift_ok (s : GameState) : Prop :=
  (s.road 0 : ℤ) + roadDX s.road_direction + road_width < (LCD_X : ℤ) - 1 ∧
  (s.road 0 : ℤ) + roadDX s.road_direction > (DASHBOARD_BORDER_X : ℤ) ∧
  (s.road_counter + 1) % 256 > s.road_curve

instance (s : GameState) : Decidable (road_shift_ok s) := by
  unfold road_shift_ok; infer_instance

/-- The new top offset inserted by road_step: the old top shifted by dx
when the guard holds, the old top unchanged otherwise. -/
def road_new_top (s : GameState) : ℤ :=
  if road_shift_ok s then (s.road 0 : ℤ) + roadDX s.road_direction
  else (s.road 0 : ℤ)

/-- Translation of road_step: increment road_counter, compute the candidate
new top offset, apply it only when it stays in bounds and the curve
resistance has elapsed, shift the whole profile down by one scanline
(the memmove), insert the new top, then decrement the section length and
re-randomise direction/curve/section when it expires. -/
def road_step (s : GameState) : GameState :=
  let rc' := if road_shift_ok s then 0 else (s.road_counter + 1) % 256
  let newRoad : Fin 48 → ℕ := fun y =>
    if y.val = 0 then storeU8 (road_new_top s) else s.road ⟨y.val - 1, by omega⟩
  let rsl := (s.road_section_length + 255) % 256
  let s := {s with road := newRoad, road_counter := rc', road_section_length := rsl}
  if rsl = 0 ∨ rsl > ROAD_SECTION_MAX then
    let (r1, s) := nextRand s
    let (r2, s) := nextRand s
    let (r3, s) := nextRand s
    {s with road_direction := r1 % 2,
            road_curve := r2 % (ROAD_CURVE_MAX + 1 - ROAD_CURVE_MIN) + ROAD_CURVE_MIN,
            road_section_length := r3 % (ROAD_SECTION_MAX + 1 - ROAD_SECTION_MIN) + ROAD_SECTION_MIN,
            road_counter := 0}
  else s

/-! ## Terrain -/

/-- The terrain_image array: two sprites created once by terrain_image_setup
(their coordinates -1,-1 are never used). -/
def terrain_image (t : Fin 2) : Sprite :=
  if t = 0 then ⟨-1, -1, terrain_tree_width, terrain_tree_height, terrain_tree_bitmap⟩
  else ⟨-1, -1, terrain_sign_width, terrain_sign_height, terrain_sign_bitmap⟩

/-- The placement part of terrain_reset: draw the type, the side and the
x coordinate, and build the candidate sprite at the requested bottom y.
Returns the candidate together with the state after the three rand calls. -/
def terrain_candidate (s : GameState) (y_bot : ℤ) : Sprite × GameState :=
  let (r1, s) := nextRand s
  let t : Fin 2 := ⟨r1 % 2, by omega⟩
  let w := (terrain_image t).width
  let h := (terrain_image t).height
  let padding := h / (ROAD_CURVE_MIN : ℤ)
  let y := y_bot - h
  let (r2, s) := nextRand s
  let left := r2 % 2 = 1
  let rb : ℤ := roadAt s y_bot
  let left :=
    if left then
      (if rb - w - padding ≤ (DASHBOARD_BORDER_X : ℤ) then false else true)
    else
      (if rb + road_width + w + padding ≥ (LCD_X : ℤ) - 1 then true else false)
  let (r3, s) := nextRand s
  let x : ℤ :=
    if left then
      let min_x : ℤ := DASHBOARD_BORDER_X + 1
      let max_x : ℤ := rb - w - padding - 1
      cmod r3 (max_x + 1 - min_x) + min_x
    else
      let min_x : ℤ := rb + road_width + padding + 1
      let max_x : ℤ := (LCD_X : ℤ) - 2 - w
      cmod r3 (max_x + 1 - min_x) + min_x
  (⟨(x : ℚ), (y : ℚ), w, h, (terrain_image t).bitmap⟩, s)

/-- Translation of terrain_reset: place the candidate, then scan the other
terrain slots and the fuel station for overlap; on any overlap park the
sprite below the screen (y = LCD_Y + 1). -/
def terrain_reset (s : GameState) (index : Fin 10) (y_bot : ℤ) : GameState :=
  let (spr, s) := terrain_candidate s y_bot
  let collision : Prop :=
    (∃ i : Fin 10, i ≠ index ∧ check_sprite_collided spr (s.terrain i)) ∨
    check_sprite_collided spr s.fuel_station
  let spr := if collision then {spr with y := ((LCD_Y : ℚ) + 1)} else spr
  {s with terrain := Function.update s.terrain index spr}

/-- Translation of terrain_setup (terrain_image_setup is the constant
terrain_image above): fill the pool with placeholder sprites, then reset
every slot to a random bottom y in the playing area. -/
def terrain_setup (s : GameState) : GameState :=
  let s := (List.finRange 10).foldl
    (fun s i =>
      let (r, s) := nextRand s
      let t : Fin 2 := ⟨r % 2, by omega⟩
      let img := terrain_image t
      {s with terrain := Function.update s.terrain i ⟨-10, -20, img.width, img.height, img.bitmap⟩})
    s
  (List.finRange 10).foldl
    (fun s i =>
      let (r, s) := nextRand s
      terrain_reset s i ((r % (LCD_Y - 3) : ℕ) : ℤ))
    s

/-- Translation of terrain_step: scroll each slot down one pixel and reset
any slot that has gone out of bounds. -/
def terrain_step (s : GameState) : GameState :=
  (List.finRange 10).foldl
    (fun s i =>
      let p := {s.terrain i with y := (s.terrain i).y + 1}
      let s := {s with terrain := Function.update s.terrain i p}
      if p.y > (LCD_Y : ℚ) then terrain_reset s i 0 else s)
    s

/-! ## Hazards -/

/-- The hazard_image array created by hazard_image_setup. -/
def hazard_image (t : Fin 2) : Sprite :=
  if t = 0 then ⟨-1, -1, hazard_triangle_width, hazard_triangle_height, hazard_triangle_bitmap⟩
  else ⟨-1, -1, hazard_spike_width, hazard_spike_height, hazard_spike_bitmap⟩

/-- The placement part of hazard_reset: draw the type and the x coordinate
inside the road at the given scanline.  (Unlike terrain, hazards spawn on
the road itself and there is no side choice.) -/
def hazard_candidate (s : GameState) (y_bot : ℤ) : Sprite × GameState :=
  let (r1, s) := nextRand s
  let t : Fin 2 := ⟨r1 % 2, by omega⟩
  let w := (hazard_image t).width
  let h := (hazard_image t).height
  let padding : ℤ := 1
  let y := y_bot - h
  let min_x : ℤ := roadAt s y_bot + padding
  let max_x : ℤ := roadAt s y_bot + road_width - w - padding
  let (r2, s) := nextRand s
  let x : ℤ := cmod r2 (max_x + 1 - min_x) + min_x
  (⟨(x : ℚ), (y : ℚ), w, h, (hazard_image t).bitmap⟩, s)

/-- Translation of hazard_reset: place the candidate, then scan only the
other hazard slots for overlap (the fuel station is not checked); on any
overlap park the sprite below the screen. -/
def hazard_reset (s : GameState) (index : Fin 2) (y_bot : ℤ) : GameState :=
  let (spr, s) := hazard_candidate s y_bot
  let collision : Prop :=
    ∃ i : Fin 2, i ≠ index ∧ check_sprite_collided spr (s.hazard i)
  let spr := if collision then {spr with y := ((LCD_Y : ℚ) + 1)} else spr
  {s with hazard := Function.update s.hazard index spr}

/-- Translation of hazard_setup. -/
def hazard_setup (s : GameState) : GameState :=
  let s := (List.finRange 2).foldl
    (fun s i =>
      let (r, s) := nextRand s
      let t : Fin 2 := ⟨r % 2, by omega⟩
      let img := hazard_image t
      {s with hazard := Function.update s.hazard i ⟨-10, -20, img.width, img.height, img.bitmap⟩})
    s
  (List.finRange 2).foldl
    (fun s i =>
      let (r, s) := nextRand s
      hazard_reset s i ((r % (LCD_Y - 20) : ℕ) : ℤ))
    s

/-- Translation of hazard_step: scroll down; an out-of-bounds hazard only
respawns with probability HAZARD_SPAWN_CHANCE percent. -/
def hazard_step (s : GameState) : GameState :=
  (List.finRange 2).foldl
    (fun s i =>
      let p := {s.hazard i with y := (s.hazard i).y + 1}
      let s := {s with hazard := Function.update s.hazard i p}
      if p.y > (LCD_Y : ℚ) then
        let (r, s) := nextRand s
        if r % 100 < HAZARD_SPAWN_CHANCE then hazard_reset s i 0 else s
      else s)
    s

/-! ## Fuel station -/

/-- Translation of fuel_station_reset: spawn just above the screen, force
the road straight for fuel_station_height + 6 steps, pick a side adjacent
to the road top, and recycle any terrain that overlaps the new station. -/
def fuel_station_reset (s : GameState) : GameState :=
  let y : ℚ := 0 - fuel_station_height - 3
  let s := {s with road_direction := ROAD_STRAIGHT,
                   road_section_length := (fuel_station_height + 6).toNat}
  let (r, s) := nextRand s
  let left := r % 2 = 1
  let r0 : ℤ := s.road 0
  let left :=
    if left then
      (if r0 - fuel_station_width ≤ (DASHBOARD_BORDER_X : ℤ) then false else true)
    else
      (if r0 + road_width + fuel_station_width ≥ (LCD_X : ℤ) - 1 then true else false)
  let x : ℚ := if left then (r0 : ℚ) - fuel_station_width + 1 else (r0 : ℚ) + road_width
  let s := {s with fuel_station := {s.fuel_station with x := x, y := y}}
  (List.finRange 10).foldl
    (fun s i =>
      if check_sprite_collided s.fuel_station (s.terrain i) then terrain_reset s i 0 else s)
    s

/-- Translation of fuel_station_step. -/
def fuel_station_step (s : GameState) : GameState :=
  let s := {s with fuel_station_counter := s.fuel_station_counter - 1}
  let s :=
    if s.fuel_station_counter < 0 ∧ s.fuel_station.y > (LCD_Y : ℚ) then
      let s := fuel_station_reset s
      let (r, s) := nextRand s
      {s with fuel_station_counter :=
        ((r % (FUEL_STAION_MAX + 1 - FUEL_STATION_MIN) + FUEL_STATION_MIN : ℕ) : ℤ)}
    else s
  {s with fuel_station := {s.fuel_station with y := s.fuel_station.y + 1}}

/-! ## Refuelling -/

/-- The adjacency condition of check_refuel: the (rounded) player box is
directly to the left or right of the fuel station and vertically inside
it. -/
def refuel_zone (s : GameState) : Prop :=
  (cround s.player.x + s.player.width = cround s.fuel_station.x ∨
   cround s.fuel_station.x + s.fuel_station.width = cround s.player.x) ∧
  cround s.player.y ≥ cround s.fuel_station.y ∧
  cround s.player.y + s.player.height ≤ cround s.fuel_station.y + s.fuel_station.height

instance (s : GameState) : Decidable (refuel_zone s) := by
  unfold refuel_zone; infer_instance

/-- Translation of check_refuel: latch refuelling and stop the car when the
player is next to the station, slower than 3, and braking. -/
def check_refuel (s : GameState) : GameState :=
  if refuel_zone s ∧ s.speed < 3 ∧ s.button_left_state = true then
    {s with refuelling := true, speed := 0}
  else s

/-- Translation of refuel: when not latched, try to latch via check_refuel;
when latched, unlatch if the car moves or the brake is released, otherwise
add fuel and clamp at FUEL_MAX (which also unlatches). -/
def refuel (s : GameState) : GameState :=
  if s.refuelling = false then check_refuel s
  else if s.speed > 0 ∨ s.button_left_state = false then {s with refuelling := false}
  else
    let f := s.fuel + 1
    if f > (FUEL_MAX : ℚ) then {s with fuel := (FUEL_MAX : ℚ), refuelling := false}
    else {s with fuel := f}

/-! ## Collision handling (dead code in this variant: the only call site,
in game_screen_step, is commented out; translated because claim C4 cites
it) -/

/-- Translation of handle_collision.  condition is uint8_t, so the C
condition -= 20 is mod-256 arithmetic and condition <= 0 means == 0. -/
def handle_collision (s : GameState) : GameState :=
  let s := {s with speed := 0, fuel := (FUEL_MAX : ℚ),
                   condition := (s.condition + 236) % 256}
  let s := if s.condition = 0 then {s with game_screen := GAMEOVER_SCREEN} else s
  let s := player_car_reset s
  (List.finRange 2).foldl
    (fun s i =>
      if (s.hazard i).y + (s.hazard i).height > s.player.y - s.player.height
      then hazard_reset s i 0 else s)
    s

/-! ## The screens and the main loop -/

/-- Translation of game_screen_setup: the full session reset run on every
entry into the Game screen.  (game_timer_counter and TCNT1 are display /
timing state outside the model.) -/
def game_screen_setup (s : GameState) : GameState :=
  let s := {s with game_paused := false, distance_counter := 0, speed_counter := 0,
                   finish_line := 250, game_over_loss := true,
                   condition := 100, fuel := (FUEL_MAX : ℚ), speed := (SPEED_MAX : ℚ),
                   distance := 0}
  let road_x : ℕ := (LCD_X - DASHBOARD_BORDER_X) / 2 - road_width / 2 + DASHBOARD_BORDER_X - 1
  let s := {s with road := fun _ => road_x, road_counter := 0,
                   road_curve := ROAD_CURVE_MIN, road_direction := ROAD_STRAIGHT}
  let (r1, s) := nextRand s
  let s := {s with road_section_length := r1 % (ROAD_SECTION_MAX + 1 - ROAD_SECTION_MIN) + ROAD_SECTION_MIN}
  let (r2, s) := nextRand s
  let s := {s with fuel_station_counter :=
    ((r2 % (FUEL_STAION_MAX + 1 - FUEL_STATION_MIN) + FUEL_STATION_MIN : ℕ) : ℤ)}
  let s := {s with fuel_station := ⟨-10, -10, fuel_station_width, fuel_station_height, fuel_station_bitmap⟩}
  let s := player_car_setup s
  let s := terrain_setup s
  hazard_setup s

/-- Translation of change_screen: entering GAME_SCREEN always runs
game_screen_setup first; every other target just switches. -/
def change_screen (new_screen : ℕ) (s : GameState) : GameState :=
  let s := if new_screen = GAME_SCREEN then game_screen_setup s else s
  {s with game_screen := new_screen}

/-- Phase 1 of game_screen_step: out-of-fuel check (the subsequent phases
still execute in the same call, exactly as in the C function). -/
def gss_fuel_check (s : GameState) : GameState :=
  if s.fuel ≤ 0 then change_screen GAMEOVER_SCREEN s else s

/-- Phase 2 of game_screen_step: horizontal movement from the joystick. -/
def gss_move (s : GameState) : GameState :=
  if s.stick_left_state then player_car_move (-1) s
  else if s.stick_right_state then player_car_move 1 s
  else s

/-- Phase 3 of game_screen_step: the ++distance_counter > FUEL_FACTOR block
updating fuel, distance and finish_line (all uint8 except fuel). -/
def gss_distance (s : GameState) : GameState :=
  let dc := (s.distance_counter + 1) % 256
  if dc > FUEL_FACTOR then
    {s with fuel := s.fuel - 1, distance := (s.distance + 1) % 256,
            finish_line := (s.finish_line + 255) % 256, distance_counter := 0}
  else {s with distance_counter := dc}

/-- Phase 5 of game_screen_step: the object steps, in source order.
(Phase 4 is refuel; the collision block between them is commented out in
this variant.) -/
def gss_objects (s : GameState) : GameState :=
  road_step (fuel_station_step (hazard_step (terrain_step s)))

/-- Phase 6 of game_screen_step: the win check. -/
def gss_finish (s : GameState) : GameState :=
  if s.finish_line < 1 then
    {change_screen GAMEOVER_SCREEN s with game_over_loss := false}
  else s

/-- Translation of game_screen_step as the composition of its phases in
source order. -/
def game_screen_step (s : GameState) : GameState :=
  gss_finish (gss_objects (refuel (gss_distance (gss_move (gss_fuel_check s)))))

/-- Translation of game_screen_update.  pot0 is this tick's reading of the
speed potentiometer.  The save/load branch of the paused case does not
mutate the modelled state (game_state_load is empty and game_state_save
only writes to USB). -/
def game_screen_update (pot0 : ℕ) (s : GameState) : GameState :=
  let s :=
    if s.prev_stick_centre_state = false ∧ s.stick_centre_state = true then
      {s with game_paused := !s.game_paused}
    else s
  if s.game_paused = false then
    let s := if s.speed_counter > (SPEED_THRESH : ℚ) then
               game_screen_step {s with speed_counter := 0}
             else s
    player_speed_input pot0 s
  else s

/-- Translation of start_screen_update: either button press enters the
Game screen. -/
def start_screen_update (s : GameState) : GameState :=
  if (s.prev_button_left_state = false ∧ s.button_left_state = true) ∨
     (s.prev_button_right_state = false ∧ s.button_right_state = true) then
    change_screen GAME_SCREEN s
  else s

/-- Translation of gameover_screen_update: SW2 back to the splash screen,
SW3 straight into a new game, stick-down load (a no-op in this variant).
The edge checks are sequential ifs, as in the source. -/
def gameover_screen_update (s : GameState) : GameState :=
  let s := if s.prev_button_left_state = false ∧ s.button_left_state = true then
             change_screen START_SCREEN s
           else s
  let s := if s.prev_button_right_state = false ∧ s.button_right_state = true then
             change_screen GAME_SCREEN s
           else s
  s

/-- The message chosen by gameover_screen_draw. -/
def gameover_message (s : GameState) : String :=
  if s.game_over_loss then "Game Over" else "You won"

/-- The per-tick external input: the debounced control states published by
ISR(TIMER0_OVF_vect), the two ADC readings (10-bit), and the number of
Timer1 compare interrupts that fired since the previous main-loop
iteration. -/
structure TickInput where
  btnL : Bool
  btnR : Bool
  stickC : Bool
  stickL : Bool
  stickR : Bool
  stickU : Bool
  stickD : Bool
  pot0 : Fin 1024
  pot1 : Fin 1024
  isrTicks : ℕ

/-- The Timer0 ISR publishing the debounced control states (modelled as the
input values for this tick). -/
def set_controls (i : TickInput) (s : GameState) : GameState :=
  {s with button_left_state := i.btnL, button_right_state := i.btnR,
          stick_centre_state := i.stickC, stick_left_state := i.stickL,
          stick_right_state := i.stickR, stick_up_state := i.stickU,
          stick_down_state := i.stickD}

/-- The Timer1 compare ISR: each firing adds speed / SPEED_FACTOR to
speed_counter while unpaused in the Game screen.  speed is only changed by
the main loop, so a batch of k firings adds k * speed / SPEED_FACTOR. -/
def isr_timer1 (i : TickInput) (s : GameState) : GameState :=
  if s.game_paused = false ∧ s.game_screen = GAME_SCREEN then
    {s with speed_counter := s.speed_counter + (i.isrTicks : ℚ) * (s.speed / SPEED_FACTOR)}
  else s

/-- The screen dispatch of update(). -/
def update_screen (pot0 : ℕ) (s : GameState) : GameState :=
  if s.game_screen = START_SCREEN then start_screen_update s
  else if s.game_screen = GAME_SCREEN then game_screen_update pot0 s
  else if s.game_screen = GAMEOVER_SCREEN then gameover_screen_update s
  else s

/-- The prev_*_state copies at the end of update(). -/
def copy_prev (s : GameState) : GameState :=
  {s with prev_button_left_state := s.button_left_state,
          prev_button_right_state := s.button_right_state,
          prev_stick_centre_state := s.stick_centre_state,
          prev_stick_left_state := s.stick_left_state,
          prev_stick_right_state := s.stick_right_state,
          prev_stick_up_state := s.stick_up_state,
          prev_stick_down_state := s.stick_down_state}

/-- One iteration of the fixed-rate main loop (update(); the draw pass has
no effect on the modelled state). -/
def tick (i : TickInput) (s : GameState) : GameState :=
  copy_prev (update_screen i.pot0.val (isr_timer1 i (set_controls i s)))

/-- The state at the first loop iteration: C zero-initialised globals, after
main() has executed change_screen(START_SCREEN).  g is the pending random
stream (srand(100) fixes it on the device; it is universally quantified
here). -/
def initState (g : ℕ → ℕ) : GameState where
  button_left_state := false
  prev_button_left_state := false
  button_right_state := false
  prev_button_right_state := false
  stick_centre_state := false
  prev_stick_centre_state := false
  stick_left_state := false
  prev_stick_left_state := false
  stick_right_state := false
  prev_stick_right_state := false
  stick_up_state := false
  prev_stick_up_state := false
  stick_down_state := false
  prev_stick_down_state := false
  condition := 0
  fuel := 0
  speed := 0
  distance := 0
  finish_line := 0
  distance_counter := 0
  speed_counter := 0
  game_over_loss := false
  game_paused := false
  player := ⟨0, 0, 0, 0, 0⟩
  road := fun _ => 0
  road_counter := 0
  road_curve := 0
  road_direction := 0
  road_section_length := 0
  terrain := fun _ => ⟨0, 0, 0, 0, 0⟩
  hazard := fun _ => ⟨0, 0, 0, 0, 0⟩
  fuel_station := ⟨0, 0, 0, 0, 0⟩
  fuel_station_counter := 0
  refuelling := false
  game_screen := START_SCREEN
  rand := g

/-- Reachable game states: the boot state for any random stream, closed
under main-loop ticks with arbitrary input. -/
inductive Reachable : GameState → Prop
| base (g : ℕ → ℕ) : Reachable (initState g)
| next (i : TickInput) {s : GameState} : Reachable s → Reachable (tick i s)

/-! ## The debounce model (ISR(TIMER0_OVF_vect))

Each of the seven controls keeps a uint8_t history register and a stable
state.  Per Timer0 overflow the raw pin sample is shifted in under the
6-bit mask, and the stable state changes only on an all-zeros or all-ones
masked history. -/

/-- The 6-bit debounce mask 0b00111111 of the ISR. -/
def debounce_mask : ℕ := 63

/-- One history update: history = ((history << 1) & mask) | sample. -/
def debounce_push (h : ℕ) (b : Bool) : ℕ :=
  ((h <<< 1) &&& debounce_mask) ||| (if b then 1 else 0)

/-- One debounce step on (history, stable state): push the raw sample, then
set the state to 0 on an all-zero history, to 1 on an all-one history, and
keep it otherwise. -/
def debounce_step (p : ℕ × Bool) (b : Bool) : ℕ × Bool :=
  let h := debounce_push p.1 b
  (h, if h = 0 then false else if h = debounce_mask then true else p.2)

/-- Folding a stream of raw samples through the debouncer. -/
def debounce_run (p : ℕ × Bool) (bs : List Bool) : ℕ × Bool :=
  bs.foldl debounce_step p

/-! ## Invariants and concrete scenario states used by the claims -/

/-- The road-bound invariant of the spec: every scanline offset lies in
the closed interval from DASHBOARD_BORDER_X + 1 to
SCREEN_WIDTH - 1 - road_width, i.e. from 27 to 67. -/
def RoadInv (s : GameState) : Prop :=
  ∀ y : Fin 48, DASHBOARD_BORDER_X + 1 ≤ s.road y ∧ s.road y ≤ LCD_X - 1 - road_width

/-- The inductive invariant of the reachable-state machine: the resource
bounds of the spec together with the auxiliary facts that make them
inductive (integrality of fuel, the coupling between an empty tank and the
distance counter, and the road bounds away from the splash screen). -/
def MasterInv (s : GameState) : Prop :=
  (∃ n : ℕ, n ≤ FUEL_MAX ∧ s.fuel = (n : ℚ)) ∧
  0 ≤ s.speed ∧ s.speed ≤ (SPEED_MAX : ℚ) ∧
  (s.condition = 0 ∨ s.condition = 100) ∧
  s.distance_counter ≤ FUEL_FACTOR ∧
  (s.game_screen = GAME_SCREEN → s.fuel = 0 → s.distance_counter = 0) ∧
  (s.game_screen ≠ START_SCREEN → RoadInv s)

/-- The tick input of the braking scenario of C5: brake held, accelerate
released, joystick idle, speed potentiometer at full scale, and an
interleaving in which Timer1 does not fire (so only player_speed_input
runs; any other interleaving only makes the car stop earlier). -/
def brakeInput : TickInput :=
  ⟨true, false, false, false, false, false, false, ⟨1023, by omega⟩, ⟨0, by omega⟩, 0⟩

/-- A concrete mid-game state for the braking scenario of C5: Game screen,
unpaused, speed 10, car centred on the straight initial road. -/
def brakeState : GameState :=
  {initState (fun _ => 0) with
    game_screen := GAME_SCREEN, speed := 10, fuel := (FUEL_MAX : ℚ), condition := 100,
    finish_line := 250, game_over_loss := true,
    player := ⟨53, 41, car_width, car_height, car_bitmap⟩,
    road := fun _ => 46,
    button_left_state := true, prev_button_left_state := true}

/-- The braking run of C5: iterate the main-loop tick with the brake held
from brakeState. -/
def brakeRun (n : ℕ) : GameState := (tick brakeInput)^[n] brakeState

/-- A concrete state for C10: one distance increment away from the finish
line, with the distance counter about to expire. -/
def winDemoState : GameState :=
  {brakeState with finish_line := 1, distance_counter := 3}

/-- A concrete state for C6: the player is rolling (speed 2, not
stationary), braking, and directly to the left of the fuel station. -/
def refuelDemoState : GameState :=
  {initState (fun _ => 0) with
    game_screen := GAME_SCREEN, speed := 2, fuel := 50, condition := 100,
    player := ⟨53, 41, car_width, car_height, car_bitmap⟩,
    fuel_station := ⟨57, 38, fuel_station_width, fuel_station_height, fuel_station_bitmap⟩,
    road := fun _ => 46,
    button_left_state := true}

/-- A concrete state for C7: the fuel station is on screen at x = 48 while
the road has curved so that road[5] = 40; the random stream first picks the
triangle hazard type and then the rightmost on-road x, so hazard_reset will
place hazard 0 overlapping the fuel station (which hazard_reset does not
check). -/
def hazardDemoState : GameState :=
  {initState (fun n => if n = 0 then 0 else 9) with
    game_screen := GAME_SCREEN,
    road := fun _ => 40,
    hazard := fun i =>
      if i = 0 then ⟨0, 0, hazard_triangle_width, hazard_triangle_height, hazard_triangle_bitmap⟩
      else ⟨0, 200, hazard_spike_width, hazard_spike_height, hazard_spike_bitmap⟩,
    fuel_station := ⟨48, 0, fuel_station_width, fuel_station_height, fuel_station_bitmap⟩}

/-- The tick input of the start-screen scenario of C8: accelerate (SW3)
pressed, everything else idle. -/
def accelInput : TickInput :=
  ⟨false, true, false, false, false, false, false, ⟨512, by omega⟩, ⟨0, by omega⟩, 0⟩

/-- The overlap condition terrain_reset tests for its candidate sprite: any
other terrain slot, or the fuel station. -/
def terrainCollides (s : GameState) (i : Fin 10) (y_bot : ℤ) : Prop :=
  (∃ k : Fin 10, k ≠ i ∧ check_sprite_collided (terrain_candidate s y_bot).1 (s.terrain k)) ∨
  check_sprite_collided (terrain_candidate s y_bot).1 s.fuel_station

instance (s : GameState) (i : Fin 10) (y_bot : ℤ) : Decidable (terrainCollides s i y_bot) := by
  unfold terrainCollides; infer_instance

/-- The overlap condition hazard_reset tests for its candidate sprite: only
the other hazard slot (the fuel station is not consulted). -/
def hazardCollides (s : GameState) (j : Fin 2) (y_bot : ℤ) : Prop :=
  ∃ k : Fin 2, k ≠ j ∧ check_sprite_collided (hazard_candidate s y_bot).1 (s.hazard k)

instance (s : GameState) (j : Fin 2) (y_bot : ℤ) : Decidable (hazardCollides s j y_bot) := by
  unfold hazardCollides; infer_instance

/-- The state reached inside a braking-scenario tick after the two ISRs
(set_controls then the Timer1 batch) and before the main-loop update. -/
def brakeMid (s : GameState) : GameState :=
  {set_controls brakeInput s with speed_counter :=
    (set_controls brakeInput s).speed_counter +
      (brakeInput.isrTicks : ℚ) * ((set_controls brakeInput s).speed / SPEED_FACTOR)}

/-- The resource-and-progress fields of a state, bundled so that frame
lemmas for the obstacle/road phases can be stated once. -/
def resourcesOf (s : GameState) : ℕ × ℚ × ℚ × ℕ × ℕ × ℕ × ℚ × Bool × Bool × Bool × ℕ :=
  (s.condition, s.fuel, s.speed, s.distance, s.finish_line, s.distance_counter,
   s.speed_counter, s.game_over_loss, s.game_paused, s.refuelling, s.game_screen)

/-! ## Frame lemmas -/

theorem foldl_proj {α β : Type _} (π : GameState → β) (f : GameState → α → GameState)
    (l : List α) (s : GameState) (h : ∀ t a, π (f t a) = π t) :
    π (l.foldl f s) = π s := by
  induction l generalizing s with
  | nil => rfl
  | cons a l ih => rw [List.foldl_cons, ih, h]

theorem resourcesOf_terrain_reset (s : GameState) (i : Fin 10) (y : ℤ) :
    resourcesOf (terrain_reset s i y) = resourcesOf s := rfl

theorem resourcesOf_hazard_reset (s : GameState) (i : Fin 2) (y : ℤ) :
    resourcesOf (hazard_reset s i y) = resourcesOf s := rfl

theorem resourcesOf_terrain_step (s : GameState) :
    resourcesOf (terrain_step s) = resourcesOf s := by
  unfold terrain_step
  exact foldl_proj _ _ _ _ (fun t a => by dsimp only; split <;> rfl)

theorem resourcesOf_hazard_step (s : GameState) :
    resourcesOf (hazard_step s) = resourcesOf s := by
  unfold hazard_step
  refine foldl_proj _ _ _ _ (fun t a => ?_)
  dsimp only
  split
  · split
    · rfl
    · rfl
  · rfl

theorem resourcesOf_fuel_station_reset (s : GameState) :
    resourcesOf (fuel_station_reset s) = resourcesOf s := by
  unfold fuel_station_reset
  exact (foldl_proj _ _ _ _ (fun t a => by split <;> rfl)).trans rfl

theorem resourcesOf_nextRand (t : GameState) :
    resourcesOf (nextRand t).2 = resourcesOf t := rfl

theorem resourcesOf_set_station_counter (t : GameState) (c : ℤ) :
    resourcesOf {t with fuel_station_counter := c} = resourcesOf t := rfl

theorem resourcesOf_set_station (t : GameState) (p : Sprite) :
    resourcesOf {t with fuel_station := p} = resourcesOf t := rfl

theorem resourcesOf_fuel_station_step (s : GameState) :
    resourcesOf (fuel_station_step s) = resourcesOf s := by
  unfold fuel_station_step
  rw [resourcesOf_set_station]
  split
  · rw [resourcesOf_set_station_counter, resourcesOf_nextRand,
      resourcesOf_fuel_station_reset, resourcesOf_set_station_counter]
  · rw [resourcesOf_set_station_counter]

theorem resourcesOf_road_step (s : GameState) :
    resourcesOf (road_step s) = resourcesOf s := by
  unfold road_step
  by_cases h : ((s.road_section_length + 255) % 256 = 0 ∨
      (s.road_section_length + 255) % 256 > ROAD_SECTION_MAX)
  · rw [if_pos h]; rfl
  · rw [if_neg h]; rfl

theorem resourcesOf_gss_objects (s : GameState) :
    resourcesOf (gss_objects s) = resourcesOf s := by
  unfold gss_objects
  rw [resourcesOf_road_step, resourcesOf_fuel_station_step, resourcesOf_hazard_step,
    resourcesOf_terrain_step]

/-- Unpack a resourcesOf equality into the individual field equalities. -/
theorem resources_fields {t s : GameState} (h : resourcesOf t = resourcesOf s) :
    t.condition = s.condition ∧ t.fuel = s.fuel ∧ t.speed = s.speed ∧
    t.distance = s.distance ∧ t.finish_line = s.finish_line ∧
    t.distance_counter = s.distance_counter ∧ t.speed_counter = s.speed_counter ∧
    t.game_over_loss = s.game_over_loss ∧ t.game_paused = s.game_paused ∧
    t.refuelling = s.refuelling ∧ t.game_screen = s.game_screen := by
  simpa [resourcesOf, Prod.ext_iff] using h

/-! Frame lemmas for the road profile: only game_screen_setup and road_step
write road[]. -/

theorem road_terrain_reset (s : GameState) (i : Fin 10) (y : ℤ) :
    (terrain_reset s i y).road = s.road := rfl

theorem road_hazard_reset (s : GameState) (i : Fin 2) (y : ℤ) :
    (hazard_reset s i y).road = s.road := rfl

theorem road_terrain_step (s : GameState) : (terrain_step s).road = s.road := by
  unfold terrain_step
  exact foldl_proj _ _ _ _ (fun t a => by dsimp only; split <;> rfl)

theorem road_hazard_step (s : GameState) : (hazard_step s).road = s.road := by
  unfold hazard_step
  refine foldl_proj _ _ _ _ (fun t a => ?_)
  dsimp only
  split
  · split
    · rfl
    · rfl
  · rfl

theorem road_fuel_station_reset (s : GameState) :
    (fuel_station_reset s).road = s.road := by
  unfold fuel_station_reset
  exact (foldl_proj _ _ _ _ (fun t a => by split <;> rfl)).trans rfl

theorem road_nextRand (t : GameState) : ((nextRand t).2).road = t.road := rfl

theorem road_set_station_counter (t : GameState) (c : ℤ) :
    ({t with fuel_station_counter := c} : GameState).road = t.road := rfl

theorem road_set_station (t : GameState) (p : Sprite) :
    ({t with fuel_station := p} : GameState).road = t.road := rfl

theorem road_fuel_station_step (s : GameState) :
    (fuel_station_step s).road = s.road := by
  unfold fuel_station_step
  rw [road_set_station]
  split
  · rw [road_set_station_counter, road_nextRand, road_fuel_station_reset,
      road_set_station_counter]
  · rw [road_set_station_counter]

/-! Frame lemmas for the fuel station sprite. -/

theorem station_terrain_reset (s : GameState) (i : Fin 10) (y : ℤ) :
    (terrain_reset s i y).fuel_station = s.fuel_station := rfl

theorem station_hazard_reset (s : GameState) (i : Fin 2) (y : ℤ) :
    (hazard_reset s i y).fuel_station = s.fuel_station := rfl

theorem station_terrain_setup (s : GameState) :
    (terrain_setup s).fuel_station = s.fuel_station := by
  unfold terrain_setup
  dsimp only
  refine (foldl_proj (fun t => t.fuel_station) _ _ _ ?_).trans (foldl_proj (fun t => t.fuel_station) _ _ _ ?_)
  · exact fun t a => rfl
  · exact fun t a => rfl

theorem station_hazard_setup (s : GameState) :
    (hazard_setup s).fuel_station = s.fuel_station := by
  unfold hazard_setup
  dsimp only
  refine (foldl_proj (fun t => t.fuel_station) _ _ _ ?_).trans (foldl_proj (fun t => t.fuel_station) _ _ _ ?_)
  · exact fun t a => rfl
  · exact fun t a => rfl

theorem road_terrain_setup (s : GameState) : (terrain_setup s).road = s.road := by
  unfold terrain_setup
  dsimp only
  refine (foldl_proj (fun t => t.road) _ _ _ ?_).trans (foldl_proj (fun t => t.road) _ _ _ ?_)
  · exact fun t a => rfl
  · exact fun t a => rfl

theorem road_hazard_setup (s : GameState) : (hazard_setup s).road = s.road := by
  unfold hazard_setup
  dsimp only
  refine (foldl_proj (fun t => t.road) _ _ _ ?_).trans (foldl_proj (fun t => t.road) _ _ _ ?_)
  · exact fun t a => rfl
  · exact fun t a => rfl

theorem resourcesOf_terrain_setup (s : GameState) :
    resourcesOf (terrain_setup s) = resourcesOf s := by
  unfold terrain_setup
  dsimp only
  refine (foldl_proj resourcesOf _ _ _ ?_).trans (foldl_proj resourcesOf _ _ _ ?_)
  · exact fun t a => rfl
  · exact fun t a => rfl

theorem resourcesOf_hazard_setup (s : GameState) :
    resourcesOf (hazard_setup s) = resourcesOf s := by
  unfold hazard_setup
  dsimp only
  refine (foldl_proj resourcesOf _ _ _ ?_).trans (foldl_proj resourcesOf _ _ _ ?_)
  · exact fun t a => rfl
  · exact fun t a => rfl

/-! ## Effect lemmas for the refuel phase -/

theorem refuel_progress (s : GameState) :
    (refuel s).condition = s.condition ∧ (refuel s).distance = s.distance ∧
    (refuel s).finish_line = s.finish_line ∧ (refuel s).distance_counter = s.distance_counter ∧
    (refuel s).game_screen = s.game_screen ∧ (refuel s).game_paused = s.game_paused ∧
    (refuel s).game_over_loss = s.game_over_loss ∧ (refuel s).road = s.road ∧
    (refuel s).speed_counter = s.speed_counter := by
  unfold refuel check_refuel
  dsimp only
  split_ifs <;> exact ⟨rfl, rfl, rfl, rfl, rfl, rfl, rfl, rfl, rfl⟩

theorem refuel_speed (s : GameState) :
    (refuel s).speed = s.speed ∨ (refuel s).speed = 0 := by
  unfold refuel check_refuel
  dsimp only
  split_ifs <;> simp

/-- The refuel phase keeps the fuel an integer at most FUEL_MAX, and can
only produce an empty tank if the tank was already empty. -/
theorem refuel_fuel_spec (s : GameState) (h : ∃ n : ℕ, n ≤ FUEL_MAX ∧ s.fuel = (n : ℚ)) :
    (∃ n : ℕ, n ≤ FUEL_MAX ∧ (refuel s).fuel = (n : ℚ)) ∧ ((refuel s).fuel = 0 → s.fuel = 0) := by
  obtain ⟨n, hn, hf⟩ := h
  unfold refuel check_refuel
  dsimp only
  split_ifs with hA hB hC hD
  · exact ⟨⟨n, hn, hf⟩, fun h => h⟩
  · exact ⟨⟨n, hn, hf⟩, fun h => h⟩
  · exact ⟨⟨n, hn, hf⟩, fun h => h⟩
  · refine ⟨⟨FUEL_MAX, le_refl _, rfl⟩, fun h => absurd h (by norm_num [FUEL_MAX])⟩
  · push_neg at hD
    rw [hf] at hD
    refine ⟨⟨n + 1, by exact_mod_cast hD, ?_⟩, fun h => ?_⟩
    · show s.fuel + 1 = ((n + 1 : ℕ) : ℚ)
      rw [hf]; push_cast; ring
    · exfalso
      have h2 : s.fuel + 1 = 0 := h
      rw [hf] at h2
      have h0 : (0 : ℚ) ≤ (n : ℚ) := by positivity
      linarith

/-! ## Effect lemmas for the game_screen_step phases -/

theorem gss_fuel_check_spec (s : GameState) :
    gss_fuel_check s =
      if s.fuel ≤ 0 then {s with game_screen := GAMEOVER_SCREEN} else s := by
  unfold gss_fuel_check change_screen
  norm_num [GAMEOVER_SCREEN, GAME_SCREEN]

theorem gss_finish_spec (s : GameState) :
    gss_finish s =
      if s.finish_line < 1 then
        {s with game_screen := GAMEOVER_SCREEN, game_over_loss := false}
      else s := by
  unfold gss_finish change_screen
  norm_num [GAMEOVER_SCREEN, GAME_SCREEN]

theorem resourcesOf_gss_move (s : GameState) :
    resourcesOf (gss_move s) = resourcesOf s := by
  unfold gss_move player_car_move
  split_ifs <;> rfl

theorem road_gss_move (s : GameState) : (gss_move s).road = s.road := by
  unfold gss_move player_car_move
  split_ifs <;> rfl

/-! ## Effect lemmas for player_speed_input -/

theorem player_speed_input_frame (pot0 : ℕ) (s : GameState) :
    (player_speed_input pot0 s).fuel = s.fuel ∧
    (player_speed_input pot0 s).condition = s.condition ∧
    (player_speed_input pot0 s).distance = s.distance ∧
    (player_speed_input pot0 s).finish_line = s.finish_line ∧
    (player_speed_input pot0 s).distance_counter = s.distance_counter ∧
    (player_speed_input pot0 s).speed_counter = s.speed_counter ∧
    (player_speed_input pot0 s).game_over_loss = s.game_over_loss ∧
    (player_speed_input pot0 s).game_paused = s.game_paused ∧
    (player_speed_input pot0 s).refuelling = s.refuelling ∧
    (player_speed_input pot0 s).game_screen = s.game_screen ∧
    (player_speed_input pot0 s).road = s.road := by
  exact ⟨rfl, rfl, rfl, rfl, rfl, rfl, rfl, rfl, rfl, rfl, rfl⟩

/-- The speed-limit clamp of player_speed_input keeps the speed inside
0 .. SPEED_MAX for every 10-bit potentiometer reading, whatever the
incoming speed was. -/
theorem player_speed_input_bounds (pot0 : ℕ) (hp : pot0 < 1024) (s : GameState) :
    0 ≤ (player_speed_input pot0 s).speed ∧
    (player_speed_input pot0 s).speed ≤ (SPEED_MAX : ℚ) := by
  unfold player_speed_input
  have hmxpos : 0 < (if offroad s s.player then SPEED_OFFROAD_MAX else SPEED_MAX) := by
    split <;> norm_num [SPEED_OFFROAD_MAX, SPEED_MAX]
  have hmxle : (if offroad s s.player then SPEED_OFFROAD_MAX else SPEED_MAX) ≤ SPEED_MAX := by
    split <;> norm_num [SPEED_OFFROAD_MAX, SPEED_MAX]
  set mx := (if offroad s s.player then SPEED_OFFROAD_MAX else SPEED_MAX) with hmxdef
  have hlim : pot0 * mx / 1024 + 1 ≤ SPEED_MAX := by
    have hdiv : pot0 * mx / 1024 < mx := by
      rw [Nat.div_lt_iff_lt_mul (by norm_num : 0 < 1024)]
      calc pot0 * mx < 1024 * mx := (Nat.mul_lt_mul_right hmxpos).mpr hp
      _ = mx * 1024 := Nat.mul_comm _ _
    omega
  have hlimQ : ((pot0 * mx / 1024 + 1 : ℕ) : ℚ) ≤ (SPEED_MAX : ℚ) := by exact_mod_cast hlim
  have h0Q : (0 : ℚ) ≤ ((pot0 * mx / 1024 + 1 : ℕ) : ℚ) := by positivity
  dsimp only
  split_ifs <;> (try simp only [not_lt] at *) <;>
    first
      | exact ⟨h0Q, hlimQ⟩
      | exact ⟨le_refl 0, by norm_num [SPEED_MAX]⟩
      | exact ⟨by linarith, by linarith⟩

/-! ## Road lemmas -/

theorem road_step_road (s : GameState) :
    (road_step s).road = fun y : Fin 48 =>
      if y.val = 0 then storeU8 (road_new_top s)
      else s.road ⟨y.val - 1, by omega⟩ := by
  unfold road_step
  dsimp only
  split <;> rfl

/-- The inserted top offset stays in the road bounds: an applied shift is
guarded into the open interval, and a rejected shift keeps the old top. -/
theorem road_new_top_bounds (s : GameState)
    (h1 : DASHBOARD_BORDER_X + 1 ≤ s.road 0)
    (h2 : s.road 0 ≤ LCD_X - 1 - road_width) :
    DASHBOARD_BORDER_X + 1 ≤ storeU8 (road_new_top s) ∧
    storeU8 (road_new_top s) ≤ LCD_X - 1 - road_width := by
  unfold road_new_top storeU8
  norm_num [DASHBOARD_BORDER_X, LCD_X, road_width] at h1 h2 ⊢
  split_ifs with hok
  · obtain ⟨ha, hb, _⟩ := hok
    norm_num [road_width, LCD_X, DASHBOARD_BORDER_X] at ha hb
    omega
  · omega

/-- road_step preserves the road-bound invariant. -/
theorem road_step_RoadInv (s : GameState) (h : RoadInv s) : RoadInv (road_step s) := by
  intro y
  rw [road_step_road]
  dsimp only
  split_ifs with h0
  · exact road_new_top_bounds s (h ⟨0, by omega⟩).1 (h ⟨0, by omega⟩).2
  · exact h _

theorem roadInv_of_eq {t s : GameState} (h : t.road = s.road) (hs : RoadInv s) :
    RoadInv t := by
  intro y
  rw [h]
  exact hs y

/-! ## The distance phase, definitionally -/

theorem gss_distance_spec (s : GameState) :
    gss_distance s =
      if (s.distance_counter + 1) % 256 > FUEL_FACTOR then
        {s with fuel := s.fuel - 1, distance := (s.distance + 1) % 256,
                finish_line := (s.finish_line + 255) % 256, distance_counter := 0}
      else {s with distance_counter := (s.distance_counter + 1) % 256} := rfl

/-! ## Facts about the fuel check and finish phases -/

theorem gss_fuel_check_facts (s : GameState) :
    (gss_fuel_check s).fuel = s.fuel ∧
    (gss_fuel_check s).distance_counter = s.distance_counter ∧
    (gss_fuel_check s).condition = s.condition ∧
    (gss_fuel_check s).game_paused = s.game_paused ∧
    (gss_fuel_check s).road = s.road ∧
    ((gss_fuel_check s).game_screen = s.game_screen ∨
      (gss_fuel_check s).game_screen = GAMEOVER_SCREEN) ∧
    ((gss_fuel_check s).game_screen = GAME_SCREEN → ¬ s.fuel ≤ 0) := by
  rw [gss_fuel_check_spec]
  split_ifs with h
  · refine ⟨rfl, rfl, rfl, rfl, rfl, Or.inr rfl, ?_⟩
    intro h2
    exact absurd h2 (by norm_num [GAMEOVER_SCREEN, GAME_SCREEN])
  · exact ⟨rfl, rfl, rfl, rfl, rfl, Or.inl rfl, fun _ => h⟩

theorem gss_finish_facts (s : GameState) :
    (gss_finish s).fuel = s.fuel ∧
    (gss_finish s).distance_counter = s.distance_counter ∧
    (gss_finish s).condition = s.condition ∧
    (gss_finish s).game_paused = s.game_paused ∧
    (gss_finish s).road = s.road ∧
    ((gss_finish s).game_screen = s.game_screen ∨
      (gss_finish s).game_screen = GAMEOVER_SCREEN) ∧
    ((gss_finish s).game_screen = GAME_SCREEN → s.game_screen = GAME_SCREEN) := by
  rw [gss_finish_spec]
  split_ifs with h
  · refine ⟨rfl, rfl, rfl, rfl, rfl, Or.inr rfl, ?_⟩
    intro h2
    exact absurd h2 (by norm_num [GAMEOVER_SCREEN, GAME_SCREEN])
  · exact ⟨rfl, rfl, rfl, rfl, rfl, Or.inl rfl, fun h => h⟩

theorem gss_objects_RoadInv (s : GameState) (h : RoadInv s) : RoadInv (gss_objects s) := by
  unfold gss_objects
  have hA : RoadInv (terrain_step s) := roadInv_of_eq (road_terrain_step s) h
  have hB : RoadInv (hazard_step (terrain_step s)) :=
    roadInv_of_eq (road_hazard_step _) hA
  have hC : RoadInv (fuel_station_step (hazard_step (terrain_step s))) :=
    roadInv_of_eq (road_fuel_station_step _) hB
  exact road_step_RoadInv _ hC

/-! ## The core behaviour of one game_screen_step -/

/-- The inductive facts that one call of game_screen_step maintains: fuel
stays an integer in 0 .. FUEL_MAX, the distance counter stays at most
FUEL_FACTOR, the screen either stays or becomes GameOver, an empty tank in
the Game screen implies a freshly reset distance counter, condition and
pause are untouched, and the road bounds are kept. -/
theorem game_screen_step_spec (s : GameState)
    (hfuel : ∃ n : ℕ, n ≤ FUEL_MAX ∧ s.fuel = (n : ℚ))
    (hdc : s.distance_counter ≤ FUEL_FACTOR)
    (hcouple : s.fuel = 0 → s.distance_counter = 0)
    (hroad : RoadInv s) :
    (∃ n : ℕ, n ≤ FUEL_MAX ∧ (game_screen_step s).fuel = (n : ℚ)) ∧
    (game_screen_step s).distance_counter ≤ FUEL_FACTOR ∧
    ((game_screen_step s).game_screen = s.game_screen ∨
      (game_screen_step s).game_screen = GAMEOVER_SCREEN) ∧
    ((game_screen_step s).game_screen = GAME_SCREEN →
      (game_screen_step s).fuel = 0 → (game_screen_step s).distance_counter = 0) ∧
    (game_screen_step s).condition = s.condition ∧
    (game_screen_step s).game_paused = s.game_paused ∧
    RoadInv (game_screen_step s) := by
  obtain ⟨n, hn, hf⟩ := hfuel
  unfold game_screen_step
  set s1 := gss_fuel_check s with hs1def
  set s2 := gss_move s1 with hs2def
  set s3 := gss_distance s2 with hs3def
  set s4 := refuel s3 with hs4def
  set s5 := gss_objects s4 with hs5def
  obtain ⟨h1fuel, h1dc, h1cond, h1paused, h1road, h1scr, h1game⟩ := gss_fuel_check_facts s
  obtain ⟨h2cond, h2fuel, -, -, -, h2dc, -, -, h2paused, -, h2scr⟩ :=
    resources_fields (resourcesOf_gss_move s1)
  have h2road : s2.road = s1.road := road_gss_move s1
  obtain ⟨h4cond, -, -, h4dc, h4scr, h4paused, -, h4road, -⟩ := refuel_progress s3
  obtain ⟨h5cond, h5fuel, -, -, -, h5dc, -, -, h5paused, -, h5scr⟩ :=
    resources_fields (resourcesOf_gss_objects s4)
  obtain ⟨hTfuel, hTdc, hTcond, hTpaused, hTroad, hTscr, hTgame⟩ := gss_finish_facts s5
  -- the distance phase, by cases on the counter expiry
  by_cases hstep : (s2.distance_counter + 1) % 256 > FUEL_FACTOR
  · -- the fuel / distance / finish block fires; the counter resets to 0
    have h3 : s3 = {s2 with fuel := s2.fuel - 1,
                            distance := (s2.distance + 1) % 256,
                            finish_line := (s2.finish_line + 255) % 256,
                            distance_counter := 0} := by
      rw [hs3def, gss_distance_spec, if_pos hstep]
    have h3fuel : s3.fuel = s2.fuel - 1 := by rw [h3]
    have h3dc : s3.distance_counter = 0 := by rw [h3]
    have h3cond : s3.condition = s2.condition := by rw [h3]
    have h3paused : s3.game_paused = s2.game_paused := by rw [h3]
    have h3road : s3.road = s2.road := by rw [h3]
    have h3scr : s3.game_screen = s2.game_screen := by rw [h3]
    -- the counter fired, so the previous tank was not empty
    have hdceq : s.distance_counter = FUEL_FACTOR := by
      rw [h2dc, h1dc] at hstep
      norm_num [FUEL_FACTOR] at hstep hdc ⊢
      omega
    have hn1 : 1 ≤ n := by
      rcases Nat.eq_zero_or_pos n with h0 | h1
      · exfalso
        have : s.fuel = 0 := by rw [hf, h0]; norm_num
        have := hcouple this
        rw [this] at hdceq
        norm_num [FUEL_FACTOR] at hdceq
      · exact h1
    have h3fuelN : s3.fuel = ((n - 1 : ℕ) : ℚ) := by
      rw [h3fuel, h2fuel, h1fuel, hf]
      push_cast [hn1]
      ring
    obtain ⟨⟨m, hm, h4fuel⟩, -⟩ :=
      refuel_fuel_spec s3 ⟨n - 1, by omega, h3fuelN⟩
    refine ⟨⟨m, hm, by rw [hTfuel, h5fuel, h4fuel]⟩, ?_, ?_, ?_, ?_, ?_, ?_⟩
    · rw [hTdc, h5dc, h4dc, h3dc]
      norm_num
    · rcases hTscr with h | h
      · rw [h, h5scr, h4scr, h3scr, h2scr]
        exact h1scr
      · exact Or.inr h
    · intro _ _
      rw [hTdc, h5dc, h4dc, h3dc]
    · rw [hTcond, h5cond, h4cond, h3cond, h2cond, h1cond]
    · rw [hTpaused, h5paused, h4paused, h3paused, h2paused, h1paused]
    · refine roadInv_of_eq hTroad (gss_objects_RoadInv s4 ?_)
      refine roadInv_of_eq h4road (roadInv_of_eq h3road (roadInv_of_eq h2road
        (roadInv_of_eq h1road hroad)))
  · -- no fuel consumption this step; the counter only increments
    have h3 : s3 = {s2 with distance_counter := (s2.distance_counter + 1) % 256} := by
      rw [hs3def, gss_distance_spec, if_neg hstep]
    have h3fuel : s3.fuel = s2.fuel := by rw [h3]
    have h3dc : s3.distance_counter = (s2.distance_counter + 1) % 256 := by rw [h3]
    have h3cond : s3.condition = s2.condition := by rw [h3]
    have h3paused : s3.game_paused = s2.game_paused := by rw [h3]
    have h3road : s3.road = s2.road := by rw [h3]
    have h3scr : s3.game_screen = s2.game_screen := by rw [h3]
    have h3fuelN : s3.fuel = (n : ℚ) := by rw [h3fuel, h2fuel, h1fuel, hf]
    obtain ⟨⟨m, hm, h4fuel⟩, h4zero⟩ := refuel_fuel_spec s3 ⟨n, hn, h3fuelN⟩
    refine ⟨⟨m, hm, by rw [hTfuel, h5fuel, h4fuel]⟩, ?_, ?_, ?_, ?_, ?_, ?_⟩
    · rw [hTdc, h5dc, h4dc, h3dc, h2dc, h1dc]
      push_neg at hstep
      rw [h2dc, h1dc] at hstep
      exact hstep
    · rcases hTscr with h | h
      · rw [h, h5scr, h4scr, h3scr, h2scr]
        exact h1scr
      · exact Or.inr h
    · intro hgame hzero
      exfalso
      have hs1game : s1.game_screen = GAME_SCREEN := by
        rw [← h2scr, ← h3scr, ← h4scr, ← h5scr]
        exact hTgame hgame
      have hnot : ¬ s.fuel ≤ 0 := h1game hs1game
      have : s4.fuel = 0 := by rw [← h5fuel, ← hTfuel]; exact hzero
      have h30 : s3.fuel = 0 := h4zero this
      rw [h3fuelN] at h30
      apply hnot
      rw [hf, h30]
    · rw [hTcond, h5cond, h4cond, h3cond, h2cond, h1cond]
    · rw [hTpaused, h5paused, h4paused, h3paused, h2paused, h1paused]
    · refine roadInv_of_eq hTroad (gss_objects_RoadInv s4 ?_)
      refine roadInv_of_eq h4road (roadInv_of_eq h3road (roadInv_of_eq h2road
        (roadInv_of_eq h1road hroad)))

/-! ## MasterInv machinery -/

theorem masterInv_transport {t s : GameState}
    (hfuel : t.fuel = s.fuel) (hspeed : t.speed = s.speed)
    (hcond : t.condition = s.condition) (hdc : t.distance_counter = s.distance_counter)
    (hscr : t.game_screen = s.game_screen) (hroad : t.road = s.road)
    (h : MasterInv s) : MasterInv t := by
  obtain ⟨h1, h2, h3, h4, h5, h6, h7⟩ := h
  refine ⟨by rw [hfuel]; exact h1, by rw [hspeed]; exact h2, by rw [hspeed]; exact h3,
    by rw [hcond]; exact h4, by rw [hdc]; exact h5, ?_, ?_⟩
  · intro ha hb
    rw [hdc]
    exact h6 (by rw [← hscr]; exact ha) (by rw [← hfuel]; exact hb)
  · intro ha
    exact roadInv_of_eq hroad (h7 (by rw [← hscr]; exact ha))

/-- The resource fields produced by game_screen_setup (refuelling and the
screen are not touched by the setup itself). -/
theorem setup_resources (s : GameState) :
    resourcesOf (game_screen_setup s) =
      (100, (FUEL_MAX : ℚ), (SPEED_MAX : ℚ), 0, 250, 0, 0, true, false,
        s.refuelling, s.game_screen) := by
  unfold game_screen_setup
  dsimp only
  rw [resourcesOf_hazard_setup, resourcesOf_terrain_setup]
  rfl

/-- The road profile after game_screen_setup: every scanline centred. -/
theorem setup_road (s : GameState) :
    (game_screen_setup s).road = fun _ : Fin 48 => 46 := by
  unfold game_screen_setup
  dsimp only
  rw [road_hazard_setup, road_terrain_setup]
  rfl

/-- The fuel station sprite after game_screen_setup: parked off-screen. -/
theorem setup_station (s : GameState) :
    (game_screen_setup s).fuel_station =
      ⟨-10, -10, fuel_station_width, fuel_station_height, fuel_station_bitmap⟩ := by
  unfold game_screen_setup
  dsimp only
  rw [station_hazard_setup, station_terrain_setup]
  rfl

theorem masterInv_change_game (s : GameState) : MasterInv (change_screen GAME_SCREEN s) := by
  have hres := setup_resources s
  simp only [resourcesOf, Prod.mk.injEq] at hres
  obtain ⟨hcond, hfuel, hspeed, hdist, hfl, hdc, hsc, hloss, hpaused, -, -⟩ := hres
  have hR : RoadInv (game_screen_setup s) := by
    intro y
    rw [setup_road]
    norm_num [DASHBOARD_BORDER_X, LCD_X, road_width]
  have hcs : change_screen GAME_SCREEN s =
      {game_screen_setup s with game_screen := GAME_SCREEN} := rfl
  rw [hcs]
  refine ⟨⟨FUEL_MAX, le_refl _, ?_⟩, ?_, ?_, ?_, ?_, ?_, ?_⟩
  · show (game_screen_setup s).fuel = ((FUEL_MAX : ℕ) : ℚ)
    rw [hfuel]
  · show (0 : ℚ) ≤ (game_screen_setup s).speed
    rw [hspeed]; norm_num [SPEED_MAX]
  · show (game_screen_setup s).speed ≤ (SPEED_MAX : ℚ)
    rw [hspeed]
  · show (game_screen_setup s).condition = 0 ∨ (game_screen_setup s).condition = 100
    rw [hcond]; right; rfl
  · show (game_screen_setup s).distance_counter ≤ FUEL_FACTOR
    rw [hdc]; norm_num
  · intro _ hzero
    exfalso
    have h2 : (game_screen_setup s).fuel = (FUEL_MAX : ℚ) := hfuel
    rw [h2] at hzero
    norm_num [FUEL_MAX] at hzero
  · intro _
    exact roadInv_of_eq
      (show ({game_screen_setup s with game_screen := GAME_SCREEN} : GameState).road =
        (game_screen_setup s).road from rfl) hR

theorem masterInv_change_start (s : GameState) (h : MasterInv s) :
    MasterInv (change_screen START_SCREEN s) := by
  obtain ⟨h1, h2, h3, h4, h5, h6, h7⟩ := h
  have hcs : change_screen START_SCREEN s = {s with game_screen := START_SCREEN} := rfl
  rw [hcs]
  refine ⟨h1, h2, h3, h4, h5, ?_, ?_⟩
  · intro ha
    exact absurd ha (by norm_num [START_SCREEN, GAME_SCREEN])
  · intro ha
    exact absurd rfl ha

theorem masterInv_change_gameover (s : GameState) (h : MasterInv s)
    (hs : s.game_screen ≠ START_SCREEN) :
    MasterInv (change_screen GAMEOVER_SCREEN s) := by
  obtain ⟨h1, h2, h3, h4, h5, h6, h7⟩ := h
  have hcs : change_screen GAMEOVER_SCREEN s = {s with game_screen := GAMEOVER_SCREEN} := rfl
  rw [hcs]
  refine ⟨h1, h2, h3, h4, h5, ?_, ?_⟩
  · intro ha
    exact absurd ha (by norm_num [GAMEOVER_SCREEN, GAME_SCREEN])
  · intro _
    exact roadInv_of_eq rfl (h7 hs)

theorem masterInv_player_speed_input (pot : ℕ) (hp : pot < 1024) {s : GameState}
    (h1 : ∃ n : ℕ, n ≤ FUEL_MAX ∧ s.fuel = (n : ℚ))
    (h2 : s.condition = 0 ∨ s.condition = 100)
    (h3 : s.distance_counter ≤ FUEL_FACTOR)
    (h4 : s.game_screen = GAME_SCREEN → s.fuel = 0 → s.distance_counter = 0)
    (h5 : s.game_screen ≠ START_SCREEN → RoadInv s) :
    MasterInv (player_speed_input pot s) := by
  obtain ⟨ffuel, fcond, -, -, fdc, -, -, -, -, fscr, froad⟩ := player_speed_input_frame pot s
  obtain ⟨b1, b2⟩ := player_speed_input_bounds pot hp s
  refine ⟨by rw [ffuel]; exact h1, b1, b2, by rw [fcond]; exact h2, by rw [fdc]; exact h3,
    ?_, ?_⟩
  · intro ha hb
    rw [fdc]
    exact h4 (by rw [← fscr]; exact ha) (by rw [← ffuel]; exact hb)
  · intro ha
    exact roadInv_of_eq froad (h5 (by rw [← fscr]; exact ha))

theorem masterInv_game_update (pot : ℕ) (hp : pot < 1024) (s : GameState)
    (h : MasterInv s) (hG : s.game_screen = GAME_SCREEN) :
    MasterInv (game_screen_update pot s) := by
  unfold game_screen_update
  dsimp only
  split_ifs with hEdge hUnpaused hStep
  · -- pause toggled, still unpaused, a game step fires, then speed input
    have hMfix : MasterInv {{s with game_paused := !s.game_paused} with speed_counter := 0} :=
      masterInv_transport rfl rfl rfl rfl rfl rfl h
    have hscrfix : ({{s with game_paused := !s.game_paused} with
        speed_counter := 0} : GameState).game_screen = GAME_SCREEN := hG
    obtain ⟨g1, g2, g3, g4, g5, g6, g7⟩ :=
      game_screen_step_spec _ hMfix.1 hMfix.2.2.2.2.1
        (hMfix.2.2.2.2.2.1 hscrfix)
        (hMfix.2.2.2.2.2.2 (by rw [hscrfix]; norm_num [GAME_SCREEN, START_SCREEN]))
    refine masterInv_player_speed_input pot hp g1 ?_ g2 g4 ?_
    · rw [g5]; exact h.2.2.2.1
    · intro _
      exact g7
  · -- pause toggled, still unpaused, no step, then speed input
    have hM : MasterInv {s with game_paused := !s.game_paused} :=
      masterInv_transport rfl rfl rfl rfl rfl rfl h
    exact masterInv_player_speed_input pot hp hM.1 hM.2.2.2.1 hM.2.2.2.2.1
      hM.2.2.2.2.2.1 hM.2.2.2.2.2.2
  · -- pause toggled into the paused state: nothing else runs
    exact masterInv_transport rfl rfl rfl rfl rfl rfl h
  · -- no toggle, unpaused, a game step fires, then speed input
    have hMfix : MasterInv {s with speed_counter := 0} :=
      masterInv_transport rfl rfl rfl rfl rfl rfl h
    have hscrfix : ({s with speed_counter := 0} : GameState).game_screen = GAME_SCREEN := hG
    obtain ⟨g1, g2, g3, g4, g5, g6, g7⟩ :=
      game_screen_step_spec _ hMfix.1 hMfix.2.2.2.2.1
        (hMfix.2.2.2.2.2.1 hscrfix)
        (hMfix.2.2.2.2.2.2 (by rw [hscrfix]; norm_num [GAME_SCREEN, START_SCREEN]))
    refine masterInv_player_speed_input pot hp g1 ?_ g2 g4 ?_
    · rw [g5]; exact h.2.2.2.1
    · intro _
      exact g7
  · -- no toggle, unpaused, no step, then speed input
    exact masterInv_player_speed_input pot hp h.1 h.2.2.2.1 h.2.2.2.2.1
      h.2.2.2.2.2.1 h.2.2.2.2.2.2
  · -- no toggle, paused
    exact h

theorem masterInv_update_screen (pot : ℕ) (hp : pot < 1024) (s : GameState)
    (h : MasterInv s) : MasterInv (update_screen pot s) := by
  unfold update_screen
  split_ifs with hS hG hO
  · unfold start_screen_update
    split_ifs
    · exact masterInv_change_game s
    · exact h
  · exact masterInv_game_update pot hp s h hG
  · unfold gameover_screen_update
    dsimp only
    split_ifs
    · exact masterInv_change_game _
    · exact masterInv_change_start s h
    · exact masterInv_change_game _
    · exact h
  · exact h

theorem masterInv_isr (i : TickInput) (s : GameState) (h : MasterInv s) :
    MasterInv (isr_timer1 i s) := by
  unfold isr_timer1
  split_ifs
  · exact masterInv_transport rfl rfl rfl rfl rfl rfl h
  · exact h

theorem masterInv_tick (i : TickInput) (s : GameState) (h : MasterInv s) :
    MasterInv (tick i s) := by
  unfold tick
  have h0 : MasterInv (set_controls i s) := masterInv_transport rfl rfl rfl rfl rfl rfl h
  have h1 := masterInv_isr i _ h0
  have h2 := masterInv_update_screen i.pot0.val i.pot0.isLt _ h1
  exact masterInv_transport rfl rfl rfl rfl rfl rfl h2

theorem masterInv_init (g : ℕ → ℕ) : MasterInv (initState g) := by
  refine ⟨⟨0, by norm_num, rfl⟩, le_refl _, by norm_num [SPEED_MAX, initState], Or.inl rfl,
    by norm_num [FUEL_FACTOR, initState], ?_, ?_⟩
  · intro ha
    exact absurd ha (by norm_num [initState, START_SCREEN, GAME_SCREEN])
  · intro ha
    exact absurd rfl ha

/-- Every reachable state satisfies the master invariant. -/
theorem reachable_masterInv {s : GameState} (h : Reachable s) : MasterInv s := by
  induction h with
  | base g => exact masterInv_init g
  | next i hr ih => exact masterInv_tick i _ ih

/-! ## Straight-run lemmas for the fuel-station road override -/

theorem road_step_no_rerand (s : GameState)
    (h : ¬((s.road_section_length + 255) % 256 = 0 ∨
        (s.road_section_length + 255) % 256 > ROAD_SECTION_MAX)) :
    (road_step s).road_direction = s.road_direction ∧
    (road_step s).road_section_length = (s.road_section_length + 255) % 256 := by
  unfold road_step
  dsimp only
  rw [if_neg h]
  exact ⟨rfl, rfl⟩

/-- With the road forced straight, the top offset is re-inserted unchanged
(dx = 0 in both guard branches). -/
theorem road_step_straight_top (s : GameState)
    (hdir : s.road_direction = ROAD_STRAIGHT)
    (h256 : s.road 0 < 256) :
    (road_step s).road 0 = s.road 0 := by
  rw [road_step_road]
  dsimp only
  rw [if_pos (show ((0 : Fin 48) : ℕ) = 0 from rfl)]
  unfold road_new_top roadDX storeU8
  rw [hdir]
  norm_num [ROAD_STRAIGHT]
  have h256b : s.road 0 < 256 := h256
  try split_ifs
  all_goals omega

/-- A straight section of length j keeps the top offset fixed for any
k ≤ j steps. -/
theorem straight_run (k : ℕ) :
    ∀ (s : GameState) (j : ℕ), k ≤ j → j ≤ ROAD_SECTION_MAX →
    s.road_direction = ROAD_STRAIGHT → s.road_section_length = j →
    s.road 0 < 256 →
    ((road_step^[k]) s).road 0 = s.road 0 := by
  induction k with
  | zero => intro s j _ _ _ _ _; rfl
  | succ k ih =>
    intro s j hkj hjmax hdir hsec h256
    rw [Function.iterate_succ_apply]
    have htop := road_step_straight_top s hdir h256
    by_cases hj1 : j = 1
    · have hk0 : k = 0 := by omega
      subst hk0
      rw [Function.iterate_zero_apply]
      exact htop
    have hj2 : 2 ≤ j := by omega
    have hnorerand : ¬((s.road_section_length + 255) % 256 = 0 ∨
        (s.road_section_length + 255) % 256 > ROAD_SECTION_MAX) := by
      rw [hsec]
      norm_num [ROAD_SECTION_MAX] at hjmax ⊢
      omega
    obtain ⟨hdir2, hsec2⟩ := road_step_no_rerand s hnorerand
    have hsec3 : (road_step s).road_section_length = j - 1 := by
      rw [hsec2, hsec]
      norm_num [ROAD_SECTION_MAX] at hjmax
      omega
    have := ih (road_step s) (j - 1) (by omega) (by norm_num [ROAD_SECTION_MAX] at hjmax ⊢; omega)
      (by rw [hdir2]; exact hdir) hsec3 (by rw [htop]; exact h256)
    rw [this, htop]

theorem direction_fuel_station_reset (s : GameState) :
    (fuel_station_reset s).road_direction = ROAD_STRAIGHT := by
  unfold fuel_station_reset
  exact (foldl_proj (fun t => t.road_direction) _ _ _ (fun t a => by split <;> rfl)).trans rfl

theorem section_fuel_station_reset (s : GameState) :
    (fuel_station_reset s).road_section_length = (fuel_station_height + 6).toNat := by
  unfold fuel_station_reset
  exact (foldl_proj (fun t => t.road_section_length) _ _ _ (fun t a => by split <;> rfl)).trans rfl

/-! ## Claim C2: the shift-queue property of road_step -/

/-- C2: after one call of road_step the offset at every scanline y > 0 is
the offset that was at scanline y-1 before the call, and the offset at
scanline 0 is the newly computed top: the old top plus dx (dx in -1, 0, +1
as dictated by the direction) when the in-bounds and curve-resistance
conditions hold, the old top unchanged otherwise.  (The hypothesis
road[0] < 256 is the uint8_t range of the C array entries.) -/
theorem C2_shift_queue (s : GameState) (h256 : s.road 0 < 256) :
    (∀ y : Fin 48, y.val ≠ 0 →
      (road_step s).road y = s.road ⟨y.val - 1, by omega⟩) ∧
    (roadDX s.road_direction = -1 ∨ roadDX s.road_direction = 0 ∨
      roadDX s.road_direction = 1) ∧
    (((road_step s).road 0 : ℤ) =
      if ((s.road 0 : ℤ) + roadDX s.road_direction + road_width <
            (LCD_X : ℤ) - 1 ∧
          (s.road 0 : ℤ) + roadDX s.road_direction >
            (DASHBOARD_BORDER_X : ℤ) ∧
          (s.road_counter + 1) % 256 > s.road_curve)
      then (s.road 0 : ℤ) + roadDX s.road_direction
      else (s.road 0 : ℤ)) := by
  refine ⟨?_, ?_, ?_⟩
  · intro y hy
    rw [road_step_road]
    dsimp only
    rw [if_neg hy]
  · unfold roadDX
    split_ifs <;> simp
  · rw [road_step_road]
    dsimp only
    rw [if_pos (show ((0 : Fin 48) : ℕ) = 0 from rfl)]
    unfold road_new_top storeU8 road_shift_ok
    split_ifs with hok
    · obtain ⟨ha, hb, -⟩ := hok
      norm_num [road_width, LCD_X, DASHBOARD_BORDER_X] at ha hb ⊢
      omega
    · omega

/-- Witness for C2 at a concrete state: on the centred straight road the
shift is rejected only by the curve counter, and every scanline inherits
its predecessor. -/
theorem C2_shift_queue_witness :
    (road_step brakeState).road ⟨1, by omega⟩ = brakeState.road 0 ∧
    (road_step brakeState).road ⟨47, by omega⟩ = brakeState.road ⟨46, by omega⟩ := by
  have h := C2_shift_queue brakeState (by norm_num [brakeState, initState])
  exact ⟨h.1 ⟨1, by omega⟩ (by norm_num), h.1 ⟨47, by omega⟩ (by norm_num)⟩

/-! ## Claim C9: the fuel-station road override -/

/-- C9: fuel_station_reset forces the road direction to Straight and the
remaining section length to fuel_station_height + 6, and for at least that
many road_step calls afterwards the generator inserts the top offset
unchanged (no horizontal shift).  The hypothesis is the uint8_t range of
the road array. -/
theorem C9_fuel_station_road_override (s : GameState)
    (h256 : s.road 0 < 256) :
    (fuel_station_reset s).road_direction = ROAD_STRAIGHT ∧
    ((fuel_station_reset s).road_section_length : ℤ) = fuel_station_height + 6 ∧
    ∀ k : ℕ, (k : ℤ) ≤ fuel_station_height + 6 →
      ((road_step^[k]) (fuel_station_reset s)).road 0 =
        s.road 0 := by
  refine ⟨direction_fuel_station_reset s, ?_, ?_⟩
  · rw [section_fuel_station_reset]
    norm_num [fuel_station_height]
  · intro k hk
    have hk14 : k ≤ 14 := by
      norm_num [fuel_station_height] at hk
      exact_mod_cast hk
    have h1 := straight_run k (fuel_station_reset s) 14 hk14
      (by norm_num [ROAD_SECTION_MAX])
      (direction_fuel_station_reset s)
      (by rw [section_fuel_station_reset]; decide)
      (by rw [road_fuel_station_reset]; exact h256)
    rw [h1, road_fuel_station_reset]

/-- Witness for C9: a full straight run of 14 steps from a concrete
mid-game state leaves the top offset at its old value 46. -/
theorem C9_fuel_station_road_override_witness :
    (fuel_station_reset brakeState).road_direction = ROAD_STRAIGHT ∧
    ((road_step^[14]) (fuel_station_reset brakeState)).road 0 = 46 := by
  have h := C9_fuel_station_road_override brakeState (by norm_num [brakeState, initState])
  refine ⟨h.1, ?_⟩
  have h2 := h.2.2 14 (by norm_num [fuel_station_height])
  rw [h2]
  norm_num [brakeState, initState]

/-! ## Shared extraction of the setup fields -/

theorem setup_fields (s : GameState) :
    (game_screen_setup s).condition = 100 ∧
    (game_screen_setup s).fuel = (FUEL_MAX : ℚ) ∧
    (game_screen_setup s).speed = (SPEED_MAX : ℚ) ∧
    (game_screen_setup s).distance = 0 ∧
    (game_screen_setup s).finish_line = 250 ∧
    (game_screen_setup s).distance_counter = 0 ∧
    (game_screen_setup s).game_over_loss = true ∧
    (game_screen_setup s).game_paused = false := by
  have hres := setup_resources s
  simp only [resourcesOf, Prod.mk.injEq] at hres
  obtain ⟨a, b, c, d, e, f, g, h, i, -, -⟩ := hres
  exact ⟨a, b, c, d, e, f, h, i⟩

theorem screen_isr (i : TickInput) (s : GameState) :
    (isr_timer1 i s).game_screen = s.game_screen := by
  unfold isr_timer1
  split <;> rfl

/-! ## Claim C1: the road-bound invariant -/

/-- C1: in every reachable state past the splash screen every road offset
lies in DASHBOARD_BORDER_X + 1 .. SCREEN_WIDTH - 1 - road_width; the
centred road written by game_screen_setup satisfies the invariant, and
road_step preserves it (a candidate shift that would leave the range is
not applied). -/
theorem C1_road_bound_invariant :
    (∀ s : GameState, Reachable s → s.game_screen ≠ START_SCREEN → RoadInv s) ∧
    (∀ s : GameState, RoadInv (game_screen_setup s)) ∧
    (∀ s : GameState, RoadInv s → RoadInv (road_step s)) := by
  refine ⟨fun s hr => (reachable_masterInv hr).2.2.2.2.2.2, fun s => ?_, road_step_RoadInv⟩
  intro y
  rw [setup_road]
  norm_num [DASHBOARD_BORDER_X, LCD_X, road_width]

/-- Witness for C1: the state reached by pressing a button on the splash
screen is in the Game screen and satisfies the road bounds, as does the
raw result of game_screen_setup. -/
theorem C1_road_bound_invariant_witness :
    RoadInv (tick brakeInput (initState fun _ => 0)) ∧
    RoadInv (game_screen_setup (initState fun _ => 0)) := by
  constructor
  · have hscr : (tick brakeInput (initState fun _ => 0)).game_screen = GAME_SCREEN := rfl
    exact C1_road_bound_invariant.1 _ (Reachable.next brakeInput (Reachable.base _))
      (by rw [hscr]; decide)
  · exact C1_road_bound_invariant.2.1 _

/-! ## Claim C4: the resource bounds -/

theorem condition_handle_collision (s : GameState) :
    (handle_collision s).condition = (s.condition + 236) % 256 := by
  unfold handle_collision
  dsimp only
  refine (foldl_proj (fun t => t.condition) _ _ _ ?_).trans ?_
  · intro t a
    dsimp only
    split <;> rfl
  · rw [show ∀ t : GameState, (player_car_reset t).condition = t.condition from fun _ => rfl]
    split <;> rfl

/-- C4: every reachable state keeps fuel in 0 .. FUEL_MAX and speed in
0 .. SPEED_MAX, and condition is either its boot value 0 or its session
value 100 (the only decrement of condition in the program is the fixed
collision penalty of handle_collision, whose call site is commented out in
this variant; the second conjunct shows that the penalty subtracts exactly
20 without wrapping below 0 whenever condition holds a session value). -/
theorem C4_resource_bounds :
    (∀ s : GameState, Reachable s →
      0 ≤ s.fuel ∧ s.fuel ≤ (FUEL_MAX : ℚ) ∧
      0 ≤ s.speed ∧ s.speed ≤ (SPEED_MAX : ℚ) ∧
      (s.condition = 0 ∨ s.condition = 100)) ∧
    (∀ s : GameState, 20 ≤ s.condition → s.condition ≤ 100 →
      (handle_collision s).condition = s.condition - 20) := by
  constructor
  · intro s hr
    obtain ⟨⟨n, hn, hf⟩, hs0, hs1, hcond, -, -, -⟩ := reachable_masterInv hr
    refine ⟨by rw [hf]; positivity, ?_, hs0, hs1, hcond⟩
    rw [hf]
    exact_mod_cast hn
  · intro s h1 h2
    rw [condition_handle_collision]
    omega

/-- Witness for C4: the boot state realises the bounds, and the collision
penalty at a full-condition state yields exactly 80. -/
theorem C4_resource_bounds_witness :
    (0 ≤ (initState fun _ => 0).fuel ∧ (initState fun _ => 0).fuel ≤ (FUEL_MAX : ℚ) ∧
      0 ≤ (initState fun _ => 0).speed ∧ (initState fun _ => 0).speed ≤ (SPEED_MAX : ℚ) ∧
      ((initState fun _ => 0).condition = 0 ∨ (initState fun _ => 0).condition = 100)) ∧
    (handle_collision brakeState).condition = 80 := by
  constructor
  · exact C4_resource_bounds.1 _ (Reachable.base _)
  · rw [C4_resource_bounds.2 brakeState (by decide) (by decide)]
    decide

/-! ## Claim C10: the implicit win condition -/

/-- C10: session setup initialises finish_line to 250 (and the loss flag to
true); finish_line decrements by exactly 1 on every distance increment of
the distance phase and only then; when it falls below 1 during a game step
the screen becomes GameOver with the loss flag cleared; and a cleared loss
flag makes the game-over screen print the win message. -/
theorem C10_win_condition :
    (∀ s : GameState, (game_screen_setup s).finish_line = 250 ∧
      (game_screen_setup s).game_over_loss = true) ∧
    (∀ s : GameState,
      ((s.distance_counter + 1) % 256 > FUEL_FACTOR → 1 ≤ s.finish_line →
        s.finish_line < 256 →
        (gss_distance s).finish_line = s.finish_line - 1 ∧
        (gss_distance s).distance = (s.distance + 1) % 256) ∧
      (¬(s.distance_counter + 1) % 256 > FUEL_FACTOR →
        (gss_distance s).finish_line = s.finish_line ∧
        (gss_distance s).distance = s.distance)) ∧
    (∀ s : GameState, (game_screen_step s).finish_line < 1 →
      (game_screen_step s).game_screen = GAMEOVER_SCREEN ∧
      (game_screen_step s).game_over_loss = false) ∧
    (∀ s : GameState, s.game_over_loss = false → gameover_message s = "You won") := by
  refine ⟨?_, ?_, ?_, ?_⟩
  · intro s
    exact ⟨(setup_fields s).2.2.2.2.1, (setup_fields s).2.2.2.2.2.2.1⟩
  · intro s
    rw [gss_distance_spec]
    constructor
    · intro h1 h2 h3
      rw [if_pos h1]
      refine ⟨?_, rfl⟩
      show (s.finish_line + 255) % 256 = s.finish_line - 1
      omega
    · intro h1
      rw [if_neg h1]
      exact ⟨rfl, rfl⟩
  · intro s h
    unfold game_screen_step at h ⊢
    rw [gss_finish_spec] at h ⊢
    split_ifs at h ⊢ with hc
    · exact ⟨rfl, rfl⟩
    · exact absurd h hc
  · intro s h
    unfold gameover_message
    rw [h]
    rfl

/-! ## Evaluation lemmas for cround on integral coordinates -/

theorem cround_intCast (z : ℤ) : cround (z : ℚ) = z := by
  unfold cround
  have h0 : ⌊(1/2 : ℚ)⌋ = 0 := by
    rw [Int.floor_eq_zero_iff]
    constructor <;> norm_num
  split_ifs with h
  · rw [Int.floor_int_add, h0]
    ring
  · rw [show -(z : ℚ) + 1/2 = ((-z : ℤ) : ℚ) + 1/2 by push_cast; ring,
      Int.floor_int_add, h0]
    ring

/-- Witness for C10 at concrete states: a fresh setup, a non-expiring
distance tick, the winning step from winDemoState, and the win message. -/
theorem C10_win_condition_witness :
    (game_screen_setup (initState fun _ => 0)).finish_line = 250 ∧
    (gss_distance brakeState).finish_line = brakeState.finish_line ∧
    (game_screen_step winDemoState).game_screen = GAMEOVER_SCREEN ∧
    (game_screen_step winDemoState).game_over_loss = false ∧
    gameover_message {brakeState with game_over_loss := false} = "You won" := by
  have h6 : ∀ t : GameState, (gss_finish t).finish_line = t.finish_line := fun t => by
    rw [gss_finish_spec]
    split_ifs <;> rfl
  have h5 : ∀ t : GameState, (gss_objects t).finish_line = t.finish_line := fun t =>
    (resources_fields (resourcesOf_gss_objects t)).2.2.2.2.1
  have h4 : ∀ t : GameState, (refuel t).finish_line = t.finish_line := fun t =>
    (refuel_progress t).2.2.1
  have hw : (game_screen_step winDemoState).finish_line = 0 := by
    unfold game_screen_step
    have h1 : gss_fuel_check winDemoState = winDemoState := by
      rw [gss_fuel_check_spec, if_neg]
      rw [show winDemoState.fuel = (100 : ℚ) from rfl]
      norm_num
    rw [h1]
    have h2 : gss_move winDemoState = winDemoState := by
      unfold gss_move
      rw [if_neg (by decide), if_neg (by decide)]
    rw [h2]
    have h3 : gss_distance winDemoState =
        {winDemoState with fuel := winDemoState.fuel - 1,
                           distance := (winDemoState.distance + 1) % 256,
                           finish_line := (winDemoState.finish_line + 255) % 256,
                           distance_counter := 0} := by
      rw [gss_distance_spec, if_pos (by decide)]
    rw [h3, h6, h5, h4]
    decide
  refine ⟨(C10_win_condition.1 _).1, ?_, ?_, ?_, ?_⟩
  · exact ((C10_win_condition.2.1 brakeState).2 (by decide)).1
  · exact (C10_win_condition.2.2.1 winDemoState (by rw [hw]; norm_num)).1
  · exact (C10_win_condition.2.2.1 winDemoState (by rw [hw]; norm_num)).2
  · exact C10_win_condition.2.2.2 _ rfl

/-! ## Claim C3: debounce hysteresis -/

/-- C3: for every control (they all run the same code), for every uint8
history value and raw sample: the stable state becomes 0 only when the
masked 6-bit history is all zeros, becomes 1 only when it is all ones, and
otherwise keeps its previous value (first conjunct: any change of state
pins the new history to all-zeros or all-ones); six consecutive identical
raw samples force the state to that value from any starting point (second
conjunct); and a sample whose five predecessors do not all agree with it
never flips the state, so a single deviating sample never flips it (third
conjunct). -/
theorem C3_debounce_hysteresis :
    (∀ h : ℕ, h < 256 → ∀ (s b : Bool),
      (debounce_step (h, s) b).2 ≠ s →
        (debounce_push h b = 0 ∧ (debounce_step (h, s) b).2 = false) ∨
        (debounce_push h b = debounce_mask ∧ (debounce_step (h, s) b).2 = true)) ∧
    (∀ h : ℕ, h < 256 → ∀ (s b : Bool),
      (debounce_run (h, s) [b, b, b, b, b, b]).2 = b) ∧
    (∀ h : ℕ, h < 256 → ∀ (s b : Bool),
      h % 32 ≠ (if b then 31 else 0) → (debounce_step (h, s) b).2 = s) := by
  refine ⟨?_, ?_, ?_⟩ <;> decide

/-- Witness for C3: a flip to 1 out of history 31, a forced run of six
ones, and a rejected single deviating sample at history 21. -/
theorem C3_debounce_hysteresis_witness :
    ((debounce_step (31, false) true).2 ≠ false →
      (debounce_push 31 true = 0 ∧ (debounce_step (31, false) true).2 = false) ∨
      (debounce_push 31 true = debounce_mask ∧ (debounce_step (31, false) true).2 = true)) ∧
    (debounce_run (0, false) [true, true, true, true, true, true]).2 = true ∧
    (debounce_step (21, false) true).2 = false := by
  refine ⟨C3_debounce_hysteresis.1 31 (by decide) false true, ?_, ?_⟩
  · exact C3_debounce_hysteresis.2.1 0 (by decide) false true
  · exact C3_debounce_hysteresis.2.2 21 (by decide) false true (by decide)

/-! ## Claim C8: the start-to-game transition -/

/-- C8: in any state shown on the Start screen, a tick in which the
accelerate button is freshly pressed switches to the Game screen with
condition 100, a full tank, speed at SPEED_MAX, distance 0, every road
offset centred at 46 and the fuel station parked off-screen at (-10,-10);
and entering the Game screen through change_screen always runs the full
session setup game_screen_setup first. -/
theorem C8_start_to_game (i : TickInput) (s : GameState)
    (hscr : s.game_screen = START_SCREEN)
    (hprev : s.prev_button_right_state = false) (hbtn : i.btnR = true) :
    (tick i s).game_screen = GAME_SCREEN ∧
    (tick i s).condition = 100 ∧
    (tick i s).fuel = (FUEL_MAX : ℚ) ∧
    (tick i s).speed = (SPEED_MAX : ℚ) ∧
    (tick i s).distance = 0 ∧
    (tick i s).road = (fun _ : Fin 48 => 46) ∧
    (tick i s).fuel_station =
      ⟨-10, -10, fuel_station_width, fuel_station_height, fuel_station_bitmap⟩ ∧
    (∀ u : GameState,
      change_screen GAME_SCREEN u = {game_screen_setup u with game_screen := GAME_SCREEN}) := by
  have h2 : isr_timer1 i (set_controls i s) = set_controls i s := by
    unfold isr_timer1
    rw [if_neg]
    rintro ⟨-, hg⟩
    rw [show (set_controls i s).game_screen = s.game_screen from rfl, hscr] at hg
    norm_num [START_SCREEN, GAME_SCREEN] at hg
  have h3 : update_screen i.pot0.val (set_controls i s) =
      change_screen GAME_SCREEN (set_controls i s) := by
    unfold update_screen
    rw [if_pos (show (set_controls i s).game_screen = START_SCREEN from hscr)]
    unfold start_screen_update
    rw [if_pos]
    exact Or.inr ⟨hprev, hbtn⟩
  have ht : tick i s = copy_prev (change_screen GAME_SCREEN (set_controls i s)) := by
    unfold tick
    rw [h2, h3]
  rw [ht]
  have hcs : change_screen GAME_SCREEN (set_controls i s) =
      {game_screen_setup (set_controls i s) with game_screen := GAME_SCREEN} := rfl
  rw [hcs]
  obtain ⟨hc, hf, hsp, hd, -, -, -, -⟩ := setup_fields (set_controls i s)
  exact ⟨rfl, hc, hf, hsp, hd, setup_road (set_controls i s),
    setup_station (set_controls i s), fun u => rfl⟩

/-- Witness for C8: pressing accelerate in the boot state enters a fully
set-up game. -/
theorem C8_start_to_game_witness :
    (tick accelInput (initState fun _ => 0)).game_screen = GAME_SCREEN ∧
    (tick accelInput (initState fun _ => 0)).condition = 100 ∧
    (tick accelInput (initState fun _ => 0)).fuel = (FUEL_MAX : ℚ) ∧
    (tick accelInput (initState fun _ => 0)).speed = (SPEED_MAX : ℚ) ∧
    (tick accelInput (initState fun _ => 0)).distance = 0 ∧
    (tick accelInput (initState fun _ => 0)).road = (fun _ : Fin 48 => 46) ∧
    (tick accelInput (initState fun _ => 0)).fuel_station =
      ⟨-10, -10, fuel_station_width, fuel_station_height, fuel_station_bitmap⟩ := by
  obtain ⟨a, b, c, d, e, f, g, -⟩ :=
    C8_start_to_game accelInput (initState fun _ => 0) rfl rfl rfl
  exact ⟨a, b, c, d, e, f, g⟩

/-! ## Claim C6: the refuelling latch -/

/-- The rounded value of a rational that is an integer is that integer. -/
theorem cround_eq_of_intCast {q : ℚ} {z : ℤ} (h : q = (z : ℚ)) : cround q = z := by
  rw [h]; exact cround_intCast z

/-- The player of refuelDemoState is adjacent to the fuel station: its
rounded box at x 53..57, y 41..46 touches the station box at x 57, y 38..46
from the left. -/
theorem refuelDemo_zone : refuel_zone refuelDemoState := by
  have c53 : cround refuelDemoState.player.x = 53 :=
    cround_eq_of_intCast (show (53 : ℚ) = ((53 : ℤ) : ℚ) by norm_num)
  have c57 : cround refuelDemoState.fuel_station.x = 57 :=
    cround_eq_of_intCast (show (57 : ℚ) = ((57 : ℤ) : ℚ) by norm_num)
  have c41 : cround refuelDemoState.player.y = 41 :=
    cround_eq_of_intCast (show (41 : ℚ) = ((41 : ℤ) : ℚ) by norm_num)
  have c38 : cround refuelDemoState.fuel_station.y = 38 :=
    cround_eq_of_intCast (show (38 : ℚ) = ((38 : ℤ) : ℚ) by norm_num)
  refine ⟨Or.inl ?_, ?_, ?_⟩
  · rw [c53, c57, show refuelDemoState.player.width = car_width from rfl]
    decide
  · rw [c41, c38]
    decide
  · rw [c41, c38, show refuelDemoState.player.height = car_height from rfl,
      show refuelDemoState.fuel_station.height = fuel_station_height from rfl]
    decide

/-- Counterexample to C6 as stated: in refuelDemoState the player is moving
at speed 2 (not stationary) while braking next to the fuel station, and the
refuelling flag still becomes true after one call of refuel. -/
theorem C6_refuel_latch_counterexample :
    refuelDemoState.refuelling = false ∧
    refuelDemoState.speed = 2 ∧
    refuelDemoState.speed ≠ 0 ∧
    refuelDemoState.button_left_state = true ∧
    refuel_zone refuelDemoState ∧
    (refuel refuelDemoState).refuelling = true := by
  refine ⟨rfl, rfl, ?_, rfl, refuelDemo_zone, ?_⟩
  · rw [show refuelDemoState.speed = (2 : ℚ) from rfl]
    norm_num
  · unfold refuel
    rw [if_pos (show refuelDemoState.refuelling = false from rfl)]
    unfold check_refuel
    rw [if_pos ⟨refuelDemo_zone,
      by rw [show refuelDemoState.speed = (2 : ℚ) from rfl]; norm_num, rfl⟩]

/-- C6 (amended): the refuelling flag becomes true exactly when the player
is slower than 3 (not necessarily stationary), braking, and adjacent to
the fuel station box; while it is true (with the car held at speed 0 and
the brake down) fuel increases by 1 per game step clamped at FUEL_MAX, and
the latch clears exactly on the step where the increment would exceed
FUEL_MAX; moving (speed > 0) or releasing the brake also clears the latch
without adding fuel. -/
theorem C6_refuel_latch (s : GameState) :
    (s.refuelling = false →
      ((refuel s).refuelling = true ↔
        refuel_zone s ∧ s.speed < 3 ∧ s.button_left_state = true)) ∧
    (s.refuelling = true → s.speed ≤ 0 → s.button_left_state = true →
      (refuel s).fuel = min (s.fuel + 1) (FUEL_MAX : ℚ) ∧
      ((refuel s).refuelling = false ↔ s.fuel + 1 > (FUEL_MAX : ℚ))) ∧
    (s.refuelling = true → (s.speed > 0 ∨ s.button_left_state = false) →
      (refuel s).refuelling = false ∧ (refuel s).fuel = s.fuel) := by
  refine ⟨?_, ?_, ?_⟩
  · intro h0
    unfold refuel
    rw [if_pos h0]
    unfold check_refuel
    by_cases hc : refuel_zone s ∧ s.speed < 3 ∧ s.button_left_state = true
    · rw [if_pos hc]
      exact iff_of_true rfl hc
    · rw [if_neg hc]
      exact iff_of_false (by rw [h0]; simp) hc
  · intro h1 h2 h3
    unfold refuel
    rw [if_neg (by simp [h1]), if_neg (by
      rintro (hsp | hbl)
      · exact absurd hsp (not_lt.mpr h2)
      · rw [h3] at hbl; exact Bool.noConfusion hbl)]
    dsimp only
    by_cases hf : s.fuel + 1 > (FUEL_MAX : ℚ)
    · rw [if_pos hf]
      exact ⟨(min_eq_right hf.le).symm, iff_of_true rfl hf⟩
    · rw [if_neg hf]
      refine ⟨(min_eq_left (not_lt.mp hf)).symm, iff_of_false ?_ hf⟩
      rw [show ({s with fuel := s.fuel + 1} : GameState).refuelling = s.refuelling from rfl,
        h1]
      simp
  · intro h1 h2
    unfold refuel
    rw [if_neg (by simp [h1]), if_pos h2]
    exact ⟨rfl, rfl⟩

/-- Witness for C6 (amended): in the latched stationary braking version of
refuelDemoState one refuel step adds 1 to the 50 units of fuel and keeps
the latch (51 is under the maximum). -/
theorem C6_refuel_latch_witness :
    (refuel {refuelDemoState with refuelling := true, speed := 0}).fuel =
      min (({refuelDemoState with refuelling := true, speed := 0} : GameState).fuel + 1)
        (FUEL_MAX : ℚ) ∧
    ((refuel {refuelDemoState with refuelling := true, speed := 0}).refuelling = false ↔
      ({refuelDemoState with refuelling := true, speed := 0} : GameState).fuel + 1 >
        (FUEL_MAX : ℚ)) := by
  exact (C6_refuel_latch {refuelDemoState with refuelling := true, speed := 0}).2.1
    rfl (le_refl (0 : ℚ)) rfl

/-! ## Claim C7: the placement overlap policy -/

/-- The terrain pool after terrain_reset: the indexed slot holds the
candidate, moved below the screen exactly when the candidate overlaps
another slot or the fuel station. -/
theorem terrain_reset_pool (s : GameState) (i : Fin 10) (y : ℤ) :
    (terrain_reset s i y).terrain =
      Function.update s.terrain i
        (if terrainCollides s i y
         then {(terrain_candidate s y).1 with y := ((LCD_Y : ℚ) + 1)}
         else (terrain_candidate s y).1) := rfl

/-- The hazard pool after hazard_reset: the indexed slot holds the
candidate, moved below the screen exactly when the candidate overlaps the
sibling hazard. -/
theorem hazard_reset_pool (s : GameState) (j : Fin 2) (y : ℤ) :
    (hazard_reset s j y).hazard =
      Function.update s.hazard j
        (if hazardCollides s j y
         then {(hazard_candidate s y).1 with y := ((LCD_Y : ℚ) + 1)}
         else (hazard_candidate s y).1) := rfl

/-- The hazard candidate drawn in hazardDemoState at scanline 5: a triangle
at (50, 2), flush with the right road border. -/
theorem hazardDemo_candidate :
    (hazard_candidate hazardDemoState 5).1 =
      ⟨((50 : ℤ) : ℚ), ((2 : ℤ) : ℚ), hazard_triangle_width, hazard_triangle_height,
        hazard_triangle_bitmap⟩ := rfl

/-- The terrain candidate drawn in refuelDemoState at scanline 20: a tree
at (68, 15) in the right verge. -/
theorem terrainDemo_candidate :
    (terrain_candidate refuelDemoState 20).1 =
      ⟨((68 : ℤ) : ℚ), ((15 : ℤ) : ℚ), terrain_tree_width, terrain_tree_height,
        terrain_tree_bitmap⟩ := rfl

/-- The triangle candidate of hazardDemoState does not overlap the sibling
hazard (parked far below at y = 200). -/
theorem hazardDemo_no_collides : ¬ hazardCollides hazardDemoState 0 5 := by
  rintro ⟨k, hk, hcol⟩
  rw [hazardDemo_candidate] at hcol
  rw [show hazardDemoState.hazard k = if k = 0
        then ⟨0, 0, hazard_triangle_width, hazard_triangle_height, hazard_triangle_bitmap⟩
        else ⟨0, 200, hazard_spike_width, hazard_spike_height, hazard_spike_bitmap⟩
      from rfl, if_neg hk] at hcol
  obtain ⟨-, h2⟩ := hcol
  exact h2 (Or.inl (by
    show ((2 : ℤ) : ℚ) + (hazard_triangle_height : ℚ) < 200
    norm_num [hazard_triangle_height]))

/-- The tree candidate of refuelDemoState overlaps neither the empty
terrain slots nor the fuel station at (57, 38). -/
theorem terrainDemo_no_collides : ¬ terrainCollides refuelDemoState 0 20 := by
  rintro (⟨k, hk, hcol⟩ | hcol)
  · rw [terrainDemo_candidate,
      show refuelDemoState.terrain k = ⟨0, 0, 0, 0, 0⟩ from rfl] at hcol
    obtain ⟨h1, -⟩ := hcol
    exact h1 (Or.inr (by
      show ((68 : ℤ) : ℚ) ≥ 0 + ((0 : ℤ) : ℚ)
      norm_num))
  · rw [terrainDemo_candidate,
      show refuelDemoState.fuel_station =
        ⟨57, 38, fuel_station_width, fuel_station_height, fuel_station_bitmap⟩ from rfl] at hcol
    obtain ⟨h1, -⟩ := hcol
    exact h1 (Or.inr (by
      show ((68 : ℤ) : ℚ) ≥ (57 : ℚ) + (fuel_station_width : ℚ)
      norm_num [fuel_station_width]))

/-- Counterexample to C7 as stated: in hazardDemoState the reset of hazard 0
places the triangle at (50, 2) — visible, not parked below the screen — and
that box overlaps the on-screen fuel station box at (48, 0), because
hazard_reset never consults the fuel station. -/
theorem C7_non_overlap_counterexample :
    (hazard_reset hazardDemoState 0 5).hazard 0 =
      ⟨((50 : ℤ) : ℚ), ((2 : ℤ) : ℚ), hazard_triangle_width, hazard_triangle_height,
        hazard_triangle_bitmap⟩ ∧
    check_sprite_collided ((hazard_reset hazardDemoState 0 5).hazard 0)
      hazardDemoState.fuel_station ∧
    ((hazard_reset hazardDemoState 0 5).hazard 0).y ≠ (LCD_Y : ℚ) + 1 ∧
    ((hazard_reset hazardDemoState 0 5).hazard 0).y ≤ (LCD_Y : ℚ) := by
  have hspr : (hazard_reset hazardDemoState 0 5).hazard 0 =
      (hazard_candidate hazardDemoState 5).1 := by
    rw [hazard_reset_pool, Function.update_same, if_neg hazardDemo_no_collides]
  rw [hspr, hazardDemo_candidate]
  refine ⟨rfl, ?_, ?_, ?_⟩
  · rw [show hazardDemoState.fuel_station =
      ⟨48, 0, fuel_station_width, fuel_station_height, fuel_station_bitmap⟩ from rfl]
    refine ⟨?_, ?_⟩
    · rintro (h | h)
      · rw [show ((50 : ℤ) : ℚ) + (hazard_triangle_width : ℚ) = 55 by
          norm_num [hazard_triangle_width]] at h
        norm_num at h
      · rw [show (48 : ℚ) + (fuel_station_width : ℚ) = 56 by
          norm_num [fuel_station_width]] at h
        norm_num at h
    · rintro (h | h)
      · rw [show ((2 : ℤ) : ℚ) + (hazard_triangle_height : ℚ) = 5 by
          norm_num [hazard_triangle_height]] at h
        norm_num at h
      · rw [show (0 : ℚ) + (fuel_station_height : ℚ) = 8 by
          norm_num [fuel_station_height]] at h
        norm_num at h
  · show ((2 : ℤ) : ℚ) ≠ (LCD_Y : ℚ) + 1
    norm_num [LCD_Y]
  · show ((2 : ℤ) : ℚ) ≤ (LCD_Y : ℚ)
    norm_num [LCD_Y]

/-- C7 (amended): a terrain reset parks the candidate below the screen
exactly when it overlaps another terrain slot or the fuel station, and an
applied (non-parked) terrain placement overlaps neither; a hazard reset
checks only the sibling hazard slot — the fuel station box is not consulted
— so an applied hazard placement is only guaranteed disjoint from the other
hazard. -/
theorem C7_non_overlap_under_placement (s : GameState) (i : Fin 10) (j : Fin 2) (y : ℤ) :
    (terrainCollides s i y →
      (terrain_reset s i y).terrain i =
        {(terrain_candidate s y).1 with y := ((LCD_Y : ℚ) + 1)}) ∧
    (¬ terrainCollides s i y →
      (terrain_reset s i y).terrain i = (terrain_candidate s y).1 ∧
      (∀ k : Fin 10, k ≠ i →
        ¬ check_sprite_collided ((terrain_reset s i y).terrain i) (s.terrain k)) ∧
      ¬ check_sprite_collided ((terrain_reset s i y).terrain i) s.fuel_station) ∧
    (hazardCollides s j y →
      (hazard_reset s j y).hazard j =
        {(hazard_candidate s y).1 with y := ((LCD_Y : ℚ) + 1)}) ∧
    (¬ hazardCollides s j y →
      (hazard_reset s j y).hazard j = (hazard_candidate s y).1 ∧
      ∀ k : Fin 2, k ≠ j →
        ¬ check_sprite_collided ((hazard_reset s j y).hazard j) (s.hazard k)) := by
  refine ⟨?_, ?_, ?_, ?_⟩
  · intro hc
    rw [terrain_reset_pool, Function.update_same, if_pos hc]
  · intro hc
    have hspr : (terrain_reset s i y).terrain i = (terrain_candidate s y).1 := by
      rw [terrain_reset_pool, Function.update_same, if_neg hc]
    refine ⟨hspr, ?_, ?_⟩
    · intro k hk hcol
      rw [hspr] at hcol
      exact hc (Or.inl ⟨k, hk, hcol⟩)
    · intro hcol
      rw [hspr] at hcol
      exact hc (Or.inr hcol)
  · intro hc
    rw [hazard_reset_pool, Function.update_same, if_pos hc]
  · intro hc
    have hspr : (hazard_reset s j y).hazard j = (hazard_candidate s y).1 := by
      rw [hazard_reset_pool, Function.update_same, if_neg hc]
    refine ⟨hspr, ?_⟩
    intro k hk hcol
    rw [hspr] at hcol
    exact hc ⟨k, hk, hcol⟩

/-- Witness for C7 (amended): in hazardDemoState both pools accept their
candidate — the terrain slot with the sibling-and-station guarantee, the
hazard slot with the sibling-only guarantee. -/
theorem C7_non_overlap_witness :
    ((terrain_reset refuelDemoState 0 20).terrain 0 =
        (terrain_candidate refuelDemoState 20).1 ∧
      (∀ k : Fin 10, k ≠ 0 →
        ¬ check_sprite_collided ((terrain_reset refuelDemoState 0 20).terrain 0)
          (refuelDemoState.terrain k)) ∧
      ¬ check_sprite_collided ((terrain_reset refuelDemoState 0 20).terrain 0)
        refuelDemoState.fuel_station) ∧
    ((hazard_reset hazardDemoState 0 5).hazard 0 = (hazard_candidate hazardDemoState 5).1 ∧
      ∀ k : Fin 2, k ≠ 0 →
        ¬ check_sprite_collided ((hazard_reset hazardDemoState 0 5).hazard 0)
          (hazardDemoState.hazard k)) :=
  ⟨(C7_non_overlap_under_placement refuelDemoState 0 0 20).2.1 terrainDemo_no_collides,
   (C7_non_overlap_under_placement hazardDemoState 0 0 5).2.2.2 hazardDemo_no_collides⟩

/-! ## Claim C5: the braking scenario -/

theorem speed_input_player (pot0 : ℕ) (s : GameState) :
    (player_speed_input pot0 s).player = s.player := rfl

/-- A main-loop update in the Game screen that neither toggles the pause
nor crosses the speed-counter threshold is exactly player_speed_input. -/
theorem game_update_skip (pot0 : ℕ) (t : GameState)
    (htscr : t.game_screen = GAME_SCREEN) (htp : t.game_paused = false)
    (htcst : t.stick_centre_state = false)
    (htsc : t.speed_counter = 0) :
    update_screen pot0 t = player_speed_input pot0 t := by
  have hA : ¬ (t.game_screen = START_SCREEN) := by
    rw [htscr]; decide
  have hP : ¬ (t.prev_stick_centre_state = false ∧ t.stick_centre_state = true) := by
    rintro ⟨-, hcst⟩
    rw [htcst] at hcst
    exact Bool.noConfusion hcst
  have hT : ¬ (t.speed_counter > (SPEED_THRESH : ℚ)) := by
    rw [htsc]; norm_num [SPEED_THRESH]
  unfold update_screen
  rw [if_neg hA, if_pos htscr]
  unfold game_screen_update
  dsimp only
  rw [if_neg hP, if_pos htp, if_neg hT]

theorem brakeMid_isr (s : GameState) (hscr : s.game_screen = GAME_SCREEN)
    (hp : s.game_paused = false) :
    isr_timer1 brakeInput (set_controls brakeInput s) = brakeMid s := by
  unfold isr_timer1 brakeMid
  rw [if_pos ⟨hp, hscr⟩]

theorem brakeMid_sc (s : GameState) (hsc : s.speed_counter = 0) :
    (brakeMid s).speed_counter = 0 := by
  show s.speed_counter + (brakeInput.isrTicks : ℚ) * (s.speed / SPEED_FACTOR) = 0
  rw [hsc, show brakeInput.isrTicks = 0 from rfl]
  norm_num

/-- While the brake is held and the car is on the road, player_speed_input
applies exactly the braking rate -10/40 and the lower clamp. -/
theorem player_speed_input_brake (pot0 : ℕ) (s : GameState)
    (hb : s.button_left_state = true) (hoff : ¬ offroad s s.player)
    (hlo : s.speed - 10/40 ≤ ((pot0 * SPEED_MAX / 1024 + 1 : ℕ) : ℚ)) :
    (player_speed_input pot0 s).speed =
      if s.speed - 10/40 < 0 then 0 else s.speed - 10/40 := by
  unfold player_speed_input
  dsimp only
  rw [if_pos hb, if_neg hoff,
    show s.speed + -10/40 = s.speed - 10/40 from by ring,
    if_neg (not_lt.mpr hlo)]

/-- One braking tick: the speed drops by 1/4 (clamped at 0) and the
scenario shape (Game screen, unpaused, idle speed counter, parked camera)
is preserved. -/
theorem brake_tick (s : GameState)
    (hscr : s.game_screen = GAME_SCREEN) (hp : s.game_paused = false)
    (hsc : s.speed_counter = 0)
    (hpl : s.player = ⟨53, 41, car_width, car_height, car_bitmap⟩)
    (hrd : s.road = (fun _ : Fin 48 => 46))
    (hsp10 : s.speed ≤ 10) :
    (tick brakeInput s).speed =
      (if s.speed - 10/40 < 0 then 0 else s.speed - 10/40) ∧
    (tick brakeInput s).game_screen = GAME_SCREEN ∧
    (tick brakeInput s).game_paused = false ∧
    (tick brakeInput s).speed_counter = 0 ∧
    (tick brakeInput s).player = ⟨53, 41, car_width, car_height, car_bitmap⟩ ∧
    (tick brakeInput s).road = (fun _ : Fin 48 => 46) := by
  have hscT := brakeMid_sc s hsc
  have htick : tick brakeInput s = copy_prev (player_speed_input 1023 (brakeMid s)) := by
    unfold tick
    rw [brakeMid_isr s hscr hp, show brakeInput.pot0.val = 1023 from rfl,
      game_update_skip 1023 (brakeMid s) hscr hp rfl hscT]
  have hplM : (brakeMid s).player = ⟨53, 41, car_width, car_height, car_bitmap⟩ := hpl
  have hatM : roadAt (brakeMid s) 41 = 46 := by
    unfold roadAt
    rw [dif_pos (by norm_num : (0 : ℤ) ≤ 41 ∧ (41 : ℤ) < 48)]
    rw [show (brakeMid s).road = s.road from rfl, hrd]
  have hoff : ¬ offroad (brakeMid s) (brakeMid s).player := by
    unfold offroad
    rw [hplM]
    dsimp only
    rw [show cround (41 : ℚ) = 41 from cround_eq_of_intCast (by norm_num), hatM]
    rintro (h | h)
    · norm_num at h
    · norm_num [car_width, road_width] at h
  have hlim : ((1023 * SPEED_MAX / 1024 + 1 : ℕ) : ℚ) = 10 := by
    norm_num [SPEED_MAX]
  have hlo : (brakeMid s).speed - 10/40 ≤ ((1023 * SPEED_MAX / 1024 + 1 : ℕ) : ℚ) := by
    rw [hlim]
    show s.speed - 10/40 ≤ (10 : ℚ)
    linarith
  have hspeed := player_speed_input_brake 1023 (brakeMid s) rfl hoff hlo
  obtain ⟨-, -, -, -, -, fsc, -, fgp, -, fscr, frd⟩ :=
    player_speed_input_frame 1023 (brakeMid s)
  refine ⟨?_, ?_, ?_, ?_, ?_, ?_⟩
  · rw [htick]
    show (player_speed_input 1023 (brakeMid s)).speed = _
    rw [hspeed]
    rfl
  · rw [htick]
    show (player_speed_input 1023 (brakeMid s)).game_screen = GAME_SCREEN
    rw [fscr]
    exact hscr
  · rw [htick]
    show (player_speed_input 1023 (brakeMid s)).game_paused = false
    rw [fgp]
    exact hp
  · rw [htick]
    show (player_speed_input 1023 (brakeMid s)).speed_counter = 0
    rw [fsc]
    exact hscT
  · rw [htick]
    show (player_speed_input 1023 (brakeMid s)).player =
      ⟨53, 41, car_width, car_height, car_bitmap⟩
    rw [speed_input_player]
    exact hplM
  · rw [htick]
    show (player_speed_input 1023 (brakeMid s)).road = (fun _ : Fin 48 => 46)
    rw [frd]
    exact hrd

/-- The braking run: after n ticks the shape is intact and the speed is
10 - n/4 until it hits the clamp at tick 40. -/
theorem brakeRun_shape (n : ℕ) :
    (brakeRun n).game_screen = GAME_SCREEN ∧
    (brakeRun n).game_paused = false ∧
    (brakeRun n).speed_counter = 0 ∧
    (brakeRun n).player = ⟨53, 41, car_width, car_height, car_bitmap⟩ ∧
    (brakeRun n).road = (fun _ : Fin 48 => 46) ∧
    0 ≤ (brakeRun n).speed ∧ (brakeRun n).speed ≤ 10 ∧
    (brakeRun n).speed = (if n < 40 then 10 - (n : ℚ)/4 else 0) := by
  induction n with
  | zero =>
      refine ⟨rfl, rfl, rfl, rfl, rfl, ?_, ?_, ?_⟩
      · show (0 : ℚ) ≤ 10
        norm_num
      · show (10 : ℚ) ≤ 10
        norm_num
      · rw [if_pos (by norm_num : (0 : ℕ) < 40)]
        show (10 : ℚ) = 10 - ((0 : ℕ) : ℚ)/4
        norm_num
  | succ n ih =>
      obtain ⟨hscr, hp, hsc, hpl, hrd, hge, hle, hval⟩ := ih
      obtain ⟨hsp, h1, h2, h3, h4, h5⟩ := brake_tick (brakeRun n) hscr hp hsc hpl hrd hle
      have hiter : brakeRun (n + 1) = tick brakeInput (brakeRun n) :=
        Function.iterate_succ_apply' _ _ _
      rw [hiter]
      refine ⟨h1, h2, h3, h4, h5, ?_, ?_, ?_⟩
      · rw [hsp]
        split_ifs with h
        · exact le_refl 0
        · exact not_lt.mp h
      · rw [hsp]
        split_ifs with h
        · norm_num
        · linarith
      · rw [hsp, hval]
        by_cases hn : n < 40
        · rw [if_pos hn]
          by_cases hn1 : n + 1 < 40
          · have hn38 : (n : ℚ) ≤ 38 := by exact_mod_cast (by omega : n ≤ 38)
            rw [if_neg (by linarith), if_pos hn1]
            push_cast
            ring
          · have hn39 : n = 39 := by omega
            subst hn39
            rw [if_neg (by norm_num), if_neg (by omega)]
            norm_num
        · rw [if_neg hn, if_pos (by norm_num), if_neg (by omega)]

/-- Counterexample to C5 as stated: after 6 braking ticks from speed 10 the
car still moves at 17/2; it only reaches 0 at tick 40 (the applied rate is
-10/40 = -1/4 per tick, not -10/60). -/
theorem C5_braking_counterexample :
    (brakeRun 0).speed = 10 ∧
    (brakeRun 6).speed = 17/2 ∧
    (brakeRun 6).speed ≠ 0 ∧
    (brakeRun 40).speed = 0 := by
  have h0 := (brakeRun_shape 0).2.2.2.2.2.2.2
  have h6 := (brakeRun_shape 6).2.2.2.2.2.2.2
  have h40 := (brakeRun_shape 40).2.2.2.2.2.2.2
  rw [if_pos (by norm_num)] at h0 h6
  rw [if_neg (by norm_num)] at h40
  refine ⟨by rw [h0]; norm_num, by rw [h6]; norm_num, by rw [h6]; norm_num, h40⟩

/-- C5 (amended): holding the brake in the Game screen with the joystick
idle applies the rate -10/40 = -1/4 per tick: from speed 10 the speed is
10 - n/4 after n ticks, reaches 0 at tick 40 (not within 6), stays clamped
at 0 from then on and never becomes negative. -/
theorem C5_braking (n : ℕ) :
    (n < 40 → (brakeRun n).speed = 10 - (n : ℚ)/4) ∧
    (40 ≤ n → (brakeRun n).speed = 0) ∧
    0 ≤ (brakeRun n).speed ∧
    (n < 40 → (brakeRun (n + 1)).speed = (brakeRun n).speed - 1/4) := by
  obtain ⟨-, -, -, -, -, hge, -, hval⟩ := brakeRun_shape n
  obtain ⟨-, -, -, -, -, -, -, hval1⟩ := brakeRun_shape (n + 1)
  refine ⟨?_, ?_, hge, ?_⟩
  · intro hn
    rw [hval, if_pos hn]
  · intro hn
    rw [hval, if_neg (by omega)]
  · intro hn
    rw [hval1, hval, if_pos hn]
    by_cases h1 : n + 1 < 40
    · rw [if_pos h1]
      push_cast
      ring
    · have h39 : n = 39 := by omega
      subst h39
      rw [if_neg (by norm_num)]
      norm_num

/-- Witness for C5 (amended): concrete points of the braking run — tick 39
still moving at 1/4, tick 41 parked, never negative, and one tick of the
exact rate. -/
theorem C5_braking_witness :
    (brakeRun 39).speed = 10 - (39 : ℚ)/4 ∧
    (brakeRun 41).speed = 0 ∧
    0 ≤ (brakeRun 12).speed ∧
    (brakeRun 21).speed = (brakeRun 20).speed - 1/4 := by
  exact ⟨(C5_braking 39).1 (by norm_num), (C5_braking 41).2.1 (by norm_num),
    (C5_braking 12).2.2.1, (C5_braking 20).2.2.2 (by norm_num)⟩

end ZombieRace
